import Mathlib

/-!
Verification of the policy recommendation ranking engine
(`backend/src/policy_recommender.py`).

The engine is embedded shallowly:

* Raw Mongo documents are JSON-like values, embedded as the inductive
  type `Dyn` (spec section 9 prescribes exactly such a tagged value
  type for the nested `coverage` objects).
* Python floats are embedded as rationals (`ℚ`); `round(x, 4)` is
  embedded as round-half-to-even at 4 decimal digits (`round4`).
* The sentence-transformer model plus sklearn cosine similarity is an
  external collaborator (spec section 6): it is passed into the
  orchestrator as an abstract similarity function
  `sim : String → String → ℚ` standing for
  `cosine_similarity(encode(user_text), encode(policy_text))`.
* The well-formed data path (`get_recommendations` and its stages) is
  embedded over typed records; the dynamic failure semantics of the
  premium resolver (uncaught `AttributeError` / `TypeError` versus the
  guarded skips) is embedded separately over `Dyn` in an `Except`
  monad (`find_applicable_premium_dyn`).
-/

namespace AskMyPolicy

attribute [local semireducible] Rat.mul Rat.add Rat.sub Rat.inv Rat.ofScientific

/-- JSON-like dynamic value, the shape of documents read from the
`compare` collection. -/
inductive Dyn where
  | str (s : String)
  | int (n : Int)
  | bool (b : Bool)
  | null
  | list (xs : List Dyn)
  | dict (kvs : List (String × Dyn))

/-- `isinstance(v, dict)`. -/
def Dyn.isDict : Dyn → Bool
  | .dict _ => true
  | _ => false

/-- `isinstance(v, list)`. -/
def Dyn.isList : Dyn → Bool
  | .list _ => true
  | _ => false

/-- Python truthiness (`if v:`). -/
def Dyn.truthy : Dyn → Bool
  | .str s => s ≠ ""
  | .int n => n ≠ 0
  | .bool b => b
  | .null => false
  | .list xs => !xs.isEmpty
  | .dict kvs => !kvs.isEmpty

/-- `d.get(k, dflt)` for a value already known to be a dict (every
`.get` in the resolver/extractor runs behind an `isinstance(_, dict)`
guard).  Returns `dflt` on a non-dict. -/
def Dyn.getD (d : Dyn) (k : String) (dflt : Dyn) : Dyn :=
  match d with
  | .dict kvs => match kvs.lookup k with
    | some v => v
    | none => dflt
  | _ => dflt

/-- An ASCII single quote (written via its code point to keep the
source free of bare quote characters). -/
def squote : String := String.singleton (Char.ofNat 39)

/-- Python `repr(v)` (as used for elements of containers inside
`str`); string escaping is not modelled, only the quoting. -/
def pythonRepr : Dyn → String
  | .str s => squote ++ s ++ squote
  | .int n => toString n
  | .bool b => if b then "True" else "False"
  | .null => "None"
  | .list xs =>
    "[" ++ ", ".intercalate (xs.attach.map fun x => pythonRepr x.1) ++ "]"
  | .dict kvs =>
    "\x7b" ++
      ", ".intercalate (kvs.attach.map fun kv =>
        squote ++ kv.1.1 ++ squote ++ ": " ++ pythonRepr kv.1.2) ++
    "\x7d"
termination_by d => sizeOf d
decreasing_by
  all_goals simp_wf
  · have h := List.sizeOf_lt_of_mem x.2
    omega
  · have h := List.sizeOf_lt_of_mem kv.2
    obtain ⟨⟨a, b⟩, hkv⟩ := kv
    simp only at h ⊢
    simp [Prod.mk.sizeOf_spec] at h
    omega

/-- Python `str(v)`: identical to `repr` except on top-level strings. -/
def pythonStr (d : Dyn) : String :=
  match d with
  | .str s => s
  | d => pythonRepr d

/-- Python `dict(items)`: key position is the first occurrence, value
is the last write. -/
def pyDict (items : List (String × Dyn)) : List (String × Dyn) :=
  items.foldl
    (fun acc kv =>
      if acc.any (fun kv2 => kv2.1 == kv.1) then
        acc.map (fun kv2 => if kv2.1 == kv.1 then (kv2.1, kv.2) else kv2)
      else acc ++ [kv])
    []

/-- `new_key = f"{parent_key}{sep}{k}" if parent_key else k` with
`sep = ' '`. -/
def flattenKey (parent k : String) : String :=
  if parent ≠ "" then parent ++ " " ++ k else k

mutual

/-- `flatten_dict(d, parent_key)`: the returned `dict(items)`. -/
def flatten_dict (kvs : List (String × Dyn)) (parent_key : String) :
    List (String × Dyn) :=
  pyDict (flattenItems kvs parent_key)
termination_by 2 * sizeOf kvs + 1

/-- The `items` list accumulated by the loop of `flatten_dict`. -/
def flattenItems : List (String × Dyn) → String → List (String × Dyn)
  | [], _ => []
  | (k, v) :: rest, parent =>
    flattenEntry (flattenKey parent k) v ++ flattenItems rest parent
termination_by l _ => 2 * sizeOf l

/-- Contribution of one `(new_key, v)` pair to `items`: nested dicts
and lists of dicts are flattened recursively, other lists are joined
into one comma-separated string, scalars are kept. -/
def flattenEntry (nk : String) : Dyn → List (String × Dyn)
  | Dyn.dict kvs2 => flatten_dict kvs2 nk
  | Dyn.list xs =>
    if xs.all Dyn.isDict then
      (xs.attach.map fun x => flattenElem nk x.1).flatten
    else
      [(nk, Dyn.str (", ".intercalate (xs.map pythonStr)))]
  | v => [(nk, v)]
termination_by v => 2 * sizeOf v
decreasing_by
  all_goals simp_wf
  all_goals try omega
  all_goals (have h := List.sizeOf_lt_of_mem x.2; omega)

/-- `flatten_dict(item, new_key)` for one element of an all-dict list
(non-dicts cannot occur on this path; they contribute nothing). -/
def flattenElem (nk : String) : Dyn → List (String × Dyn)
  | Dyn.dict kvs2 => flatten_dict kvs2 nk
  | _ => []
termination_by d => 2 * sizeOf d

end

/-! ### Python string primitives

The string methods the engine uses (`lower`, `strip`, `replace`,
`split`, `in`, `int(...)`), modelled character-wise (ASCII case
mapping, as in the data at hand). -/

/-- ASCII lower-casing of one character. -/
def pyCharLower (c : Char) : Char :=
  if 65 ≤ c.toNat ∧ c.toNat ≤ 90 then Char.ofNat (c.toNat + 32) else c

/-- Python `s.lower()`. -/
def pyLowerStr (s : String) : String :=
  (s.toList.map pyCharLower).asString

/-- The whitespace set of Python `str.strip()`. -/
def pyIsSpace (c : Char) : Bool :=
  c.toNat = 32 || c.toNat = 9 || c.toNat = 10 || c.toNat = 13 ||
  c.toNat = 11 || c.toNat = 12

/-- Drop leading whitespace. -/
def dropSpaces : List Char → List Char
  | [] => []
  | c :: cs => if pyIsSpace c then dropSpaces cs else c :: cs

/-- Python `s.strip()`. -/
def pyStrip (s : String) : String :=
  ((dropSpaces (dropSpaces s.toList).reverse).reverse).asString

/-- Python `s.replace(c, r)` for a one-character needle. -/
def pyReplaceChar (s : String) (c : Char) (r : String) : String :=
  (s.toList.flatMap (fun ch => if ch = c then r.toList else [ch])).asString

/-- Python `c in s` for one character. -/
def pyContainsChar (s : String) (c : Char) : Bool :=
  s.toList.any (fun ch => ch = c)

/-- Python `s.split(c)` for a one-character separator: every
occurrence splits, empty pieces are kept. -/
def splitOnChar (c : Char) : List Char → List (List Char)
  | [] => [[]]
  | x :: xs =>
    if x = c then [] :: splitOnChar c xs
    else
      match splitOnChar c xs with
      | h :: t => (x :: h) :: t
      | [] => [[x]]

/-- Python `s.split(c)` on strings. -/
def pySplitOnChar (s : String) (c : Char) : List String :=
  (splitOnChar c s.toList).map List.asString

/-- An ASCII decimal digit. -/
def pyIsDigit (c : Char) : Bool :=
  48 ≤ c.toNat && c.toNat ≤ 57

/-- Parse a nonempty all-digit character list. -/
def digitsToNat (cs : List Char) : Option ℕ :=
  if cs.isEmpty || !cs.all pyIsDigit then none
  else some (cs.foldl (fun acc c => 10 * acc + (c.toNat - 48)) 0)

/-- Python `int(s)` (optional surrounding whitespace, optional sign,
decimal digits; digit-group underscores are not modelled). `none`
stands for a raised `ValueError`. -/
def pyInt (s : String) : Option Int :=
  match (pyStrip s).toList with
  | [] => none
  | c :: cs =>
    if c = Char.ofNat 43 then (digitsToNat cs).map (fun n => (n : Int))
    else if c = Char.ofNat 45 then (digitsToNat cs).map (fun n => -(n : Int))
    else (digitsToNat (c :: cs)).map (fun n => (n : Int))

/-- Python `needle in hay` (substring containment). -/
def substrB (needle hay : String) : Bool :=
  hay.toList.tails.any (fun t => needle.toList.isPrefixOf t)

/-! ### Premium resolver (typed records, the schema of spec section 3) -/

/-- One `ageBrackets` entry: `{age: string range, premiumAmount}`. -/
structure AgeBracketRow where
  age : String
  premiumAmount : ℚ
deriving DecidableEq

/-- One `premiumOptions` entry. -/
structure PremiumOption where
  type : String
  composition : String
  ageBrackets : List AgeBracketRow
deriving DecidableEq

/-- One `premiumChart` entry (a sum-insured tier). -/
structure ChartItem where
  sumInsured : ℚ
  premiumOptions : List PremiumOption
deriving DecidableEq

/-- One `premiums` entry (a zone). -/
structure Zone where
  zoneName : String
  cities : List String
  premiumChart : List ChartItem
deriving DecidableEq

/-- `parse_age_bracket` (lines 232-242): `"N+"` becomes `(N, 999)`,
`"A-B"` becomes `(A, B)`, `"N"` becomes `(N, N)`.  `none` stands for a
raised exception (caught by the caller). -/
def parse_age_bracket (age_string : String) : Option (Int × Int) :=
  if pyContainsChar age_string (Char.ofNat 43) then
    (pyInt (pyStrip (pyReplaceChar age_string (Char.ofNat 43) ""))).map
      (fun n => (n, 999))
  else if pyContainsChar age_string (Char.ofNat 45) then
    match pySplitOnChar age_string (Char.ofNat 45) with
    | p0 :: p1 :: _ =>
      match pyInt (pyStrip p0), pyInt (pyStrip p1) with
      | some a, some b => some (a, b)
      | _, _ => none
    | _ => none
  else
    (pyInt (pyStrip age_string)).map (fun n => (n, n))

/-- The age test applied to one bracket string inside
`find_applicable_premium` (lines 293-296): parse, then
`min_age <= user_age <= max_age`; an unparsable bracket matches
nothing (the `except: continue`). -/
def bracket_matches (age_string : String) (user_age : Int) : Bool :=
  match parse_age_bracket age_string with
  | some (mn, mx) => decide (mn ≤ user_age ∧ user_age ≤ mx)
  | none => false

/-- The city test of lines 257-260:
`city.lower() == user_city.lower() or user_city.lower() in city.lower()`. -/
def city_match (user_city city : String) : Bool :=
  pyLowerStr city == pyLowerStr user_city || substrB (pyLowerStr user_city) (pyLowerStr city)

/-- One entry of the `best_matches` list. -/
structure PremiumInfo where
  premium_amount : ℚ
  sum_insured : ℚ
  zone : String
  composition : String
  age_bracket : String
deriving DecidableEq

/-- The bracket-level body of the resolver loop: append a match dict
when the parsed bracket contains the user's age, skip otherwise
(including the `except: continue` for unparsable brackets). -/
def bracketEntry (user_age : Int) (sum_insured : ℚ) (zone_name composition : String)
    (br : AgeBracketRow) : Option PremiumInfo :=
  match parse_age_bracket br.age with
  | some (mn, mx) =>
    if mn ≤ user_age ∧ user_age ≤ mx then
      some ⟨br.premiumAmount, sum_insured, zone_name, composition, br.age⟩
    else none
  | none => none

/-- The `best_matches` list collected by the nested loops of
`find_applicable_premium` (lines 249-305), written as nested list
comprehensions. -/
def collect_matches (premiums : List Zone) (user_age : Int)
    (user_city policy_category : String) : List PremiumInfo :=
  premiums.flatMap fun zone =>
    if zone.cities.any (city_match user_city) then
      zone.premiumChart.flatMap fun item =>
        item.premiumOptions.flatMap fun opt =>
          if opt.type = policy_category then
            opt.ageBrackets.filterMap
              (bracketEntry user_age item.sumInsured zone.zoneName opt.composition)
          else []
    else []

/-- Python `min(l, key=premium_amount)` guarded by `if best_matches:`:
the first element attaining the minimum key (later elements replace
the current best only when strictly smaller). -/
def pyMinByPremium (l : List PremiumInfo) : Option PremiumInfo :=
  match l with
  | [] => none
  | x :: xs =>
    some (xs.foldl (fun best y =>
      if y.premium_amount < best.premium_amount then y else best) x)

/-- `find_applicable_premium` (lines 244-310).  The guard
`if not premiums or not isinstance(premiums, list): return None`
coincides with the empty-matches case on the typed table. -/
def find_applicable_premium (premiums : List Zone) (user_age : Int)
    (user_city policy_category : String) : Option PremiumInfo :=
  pyMinByPremium (collect_matches premiums user_age user_city policy_category)

/-! ### Policy records and the coverage extractor -/

/-- A policy document, with the identity and pricing fields typed and
the free-form coverage fields kept dynamic.  An absent optional field
is `Dyn.null` (the code only ever tests them with `isinstance`). -/
structure Policy where
  id : String
  policyName : String
  insurer : String
  policyType : String
  code : String
  isActive : Bool
  coverage : Dyn
  specialCoverages : Dyn
  addOns_OptionalBenefits : Dyn
  premiums : List Zone

/-- The record built by `extract_coverage_details`.  The `raw_*`
fields are carried verbatim and never read downstream. -/
structure CoverageData where
  text : String
  features : List String
  special_coverages : List Dyn
  addons : List Dyn
  raw_coverage : Dyn
  raw_special : Dyn
  raw_addons : Dyn

/-- `extract_coverage_details` (lines 44-92). -/
def extract_coverage_details (policy : Policy) : CoverageData :=
  let features := match policy.coverage with
    | Dyn.dict kvs =>
      (flatten_dict kvs "").map
        (fun kv => pyReplaceChar kv.1 (Char.ofNat 95) " " ++ ": " ++ pythonStr kv.2)
    | _ => []
  let special_coverages := match policy.specialCoverages with
    | Dyn.list xs =>
      xs.filter (fun s => s.isDict && (s.getD "isCovered" Dyn.null).truthy)
    | _ => []
  let addons := match policy.addOns_OptionalBenefits with
    | Dyn.list xs =>
      xs.filter (fun a => a.isDict && (a.getD "isAvailable" Dyn.null).truthy)
    | _ => []
  let all_text := features
    ++ special_coverages.map (fun sc =>
         pythonStr (sc.getD "diseaseName" (Dyn.str "")) ++ " " ++
         pythonStr (sc.getD "details" (Dyn.str "")) ++ " " ++
         pythonStr (sc.getD "limit" (Dyn.str "")))
    ++ addons.map (fun a =>
         pythonStr (a.getD "name" (Dyn.str "")) ++ " " ++
         pythonStr (a.getD "details" (Dyn.str "")))
  { text := " ".intercalate all_text
    features := features
    special_coverages := special_coverages
    addons := addons
    raw_coverage := policy.coverage
    raw_special := policy.specialCoverages
    raw_addons := policy.addOns_OptionalBenefits }

/-! ### Keyword matcher -/

/-- The fixed `keyword_map` of `keyword_matching` (lines 106-120). -/
def keyword_map : List (String × List String) :=
  [("hiv", ["hiv", "aids", "hiv/aids", "std"]),
   ("cancer", ["cancer", "oncology", "chemotherapy", "malignancy"]),
   ("mental", ["mental", "psychiatric", "psychology"]),
   ("maternity", ["maternity", "pregnancy", "childbirth", "delivery"]),
   ("hospitalization", ["hospitalization", "inpatient", "hospital"]),
   ("critical illness", ["critical illness", "critical disease"]),
   ("accident", ["accident", "accidental", "injury"]),
   ("ambulance", ["ambulance", "emergency transport"]),
   ("daycare", ["day care", "daycare", "day treatment"]),
   ("domiciliary", ["domiciliary", "home treatment"]),
   ("cashless", ["cashless", "network hospital"]),
   ("pre hospitalization", ["pre hospitalization", "pre-hospitalization"]),
   ("post hospitalization", ["post hospitalization", "post-hospitalization"])]

/-- The result record of `keyword_matching`. -/
structure KeywordMatch where
  matched_features : List String
  keyword_score : ℕ
  total_keywords : ℕ
  match_percentage : ℚ
deriving DecidableEq

/-- `keyword_matching` (lines 94-143), taking the extractor's text
blob directly.  The loop state is
(`matched_features`, `keyword_score`, `total_keywords`). -/
def keyword_matching (user_requirement coverage_text : String) : KeywordMatch :=
  let u := pyLowerStr user_requirement
  let c := pyLowerStr coverage_text
  let res := keyword_map.foldl
    (fun (acc : List String × ℕ × ℕ) e =>
      if e.2.any (fun kw => substrB kw u) then
        if e.2.any (fun kw => substrB kw c) then
          (acc.1 ++ [e.1], acc.2.1 + 1, acc.2.2 + 1)
        else
          (acc.1, acc.2.1, acc.2.2 + 1)
      else acc)
    ([], 0, 0)
  { matched_features := res.1
    keyword_score := res.2.1
    total_keywords := res.2.2
    match_percentage :=
      if res.2.2 > 0 then (res.2.1 : ℚ) / (res.2.2 : ℚ) * 100 else 0 }

/-! ### Summary generator -/

/-- The fixed `coverage_checks` table of `generate_coverage_summary`
(lines 163-171). -/
def coverage_checks : List (String × List String) :=
  [("HIV/AIDS", ["hiv", "aids"]),
   ("Cancer", ["cancer", "oncology", "chemotherapy"]),
   ("Mental Illness", ["mental", "psychiatric"]),
   ("Maternity", ["maternity", "pregnancy"]),
   ("Critical Illness", ["critical illness"]),
   ("Accident", ["accident", "accidental"]),
   ("Hospitalization", ["hospitalization", "inpatient"])]

/-- `sc.get('diseaseName', '').lower()`: the schema makes
`diseaseName` a string; on a non-string Python would raise, which no
claim exercises, so other variants lower to `""`. -/
def diseaseNameLower (sc : Dyn) : String :=
  match sc.getD "diseaseName" (Dyn.str "") with
  | Dyn.str s => pyLowerStr s
  | _ => ""

/-- The `details` search of lines 181-188: stop at the first special
coverage whose `diseaseName` contains a trigger; keep its `limit`
only when truthy. -/
def findLimitDetails (keywords : List String) : List Dyn → Option Dyn
  | [] => none
  | sc :: rest =>
    if keywords.any (fun kw => substrB kw (diseaseNameLower sc)) then
      let limit := sc.getD "limit" (Dyn.str "")
      if limit.truthy then some limit else none
    else findLimitDetails keywords rest

/-- `generate_coverage_summary` (lines 145-230).  The
`keyword_match` argument is read into two unused locals in the
source, so it is unused here too. -/
def generate_coverage_summary (user_requirement : String)
    (coverage_data : CoverageData) (_keyword_match : KeywordMatch) : String :=
  let user_req_lower := pyLowerStr user_requirement
  let coverage_text_lower := pyLowerStr coverage_data.text
  let step := coverage_checks.foldl
    (fun (acc : List String × List String) e =>
      if e.2.any (fun kw => substrB kw user_req_lower) then
        if e.2.any (fun kw => substrB kw coverage_text_lower) then
          match findLimitDetails e.2 coverage_data.special_coverages with
          | some details =>
            (acc.1 ++ ["✓ Yes, " ++ e.1 ++ " is covered (" ++ pythonStr details ++ ")"],
             acc.2)
          | none =>
            (acc.1 ++ ["✓ Yes, " ++ e.1 ++ " is covered"], acc.2)
        else (acc.1, acc.2 ++ [e.1])
      else acc)
    ([], [])
  let coverage_responses := step.1
  let not_covered := step.2
  if coverage_responses.isEmpty && not_covered.isEmpty then
    "This policy provides standard health insurance coverage including in-patient hospitalization, pre and post hospitalization expenses, day care procedures, and ambulance services. " ++
    "However, it may not specifically cover the exact features you mentioned. " ++
    "Please review the policy details or consider exploring riders and optional add-ons to customize your coverage."
  else
    let s1 := match coverage_responses with
      | [] => ""
      | [r0] => r0 ++ ". "
      | [r0, r1] => r0 ++ " " ++ r1 ++ ". "
      | _ => " ".intercalate (coverage_responses.take 3) ++ ". "
    let s2 :=
      if !not_covered.isEmpty then
        (match not_covered with
         | [n0] => "✗ However, " ++ n0 ++ " is not covered under the base policy. "
         | _ =>
           "✗ However, " ++ ", ".intercalate not_covered.dropLast ++ " and " ++
           (not_covered.getLast?.getD "") ++
           " are not covered under the base policy. ") ++
        "You may explore optional riders and add-ons to enhance your coverage for these features."
      else ""
    let s3 :=
      if !coverage_data.addons.isEmpty then
        let addon_names := (coverage_data.addons.take 2).map
          (fun a => pythonStr (a.getD "name" (Dyn.str "")))
        if !addon_names.isEmpty then
          " Available add-ons include " ++ ", ".intercalate addon_names ++ "."
        else ""
      else ""
    s1 ++ s2 ++ s3

/-! ### Rounding

Python `round(x, 4)`: round to the nearest multiple of `10 ^ (-4)`,
ties to even. -/

/-- Floor of a rational (numerator floor-divided by denominator). -/
def ratFloor (x : ℚ) : ℤ :=
  Int.fdiv x.num x.den

/-- Round a rational to the nearest integer, ties to even. -/
def roundHalfEven (x : ℚ) : ℤ :=
  let f := ratFloor x
  let r := x - f
  if r < 1 / 2 then f
  else if 1 / 2 < r then f + 1
  else if f % 2 = 0 then f else f + 1

/-- Python `round(x, 4)`. -/
def round4 (x : ℚ) : ℚ :=
  (roundHalfEven (x * 10000) : ℚ) / 10000

/-! ### Ranking orchestrator -/

/-- One output entry of `get_recommendations` (lines 379-395).  The
identity fields stand for `policy.get(key, default)` on the typed
record. -/
structure Recommendation where
  policy_id : String
  policy_name : String
  insurer : String
  policy_type : String
  code : String
  premium : ℚ
  sum_insured : ℚ
  zone : String
  composition : String
  age_bracket : String
  nlp_score : ℚ
  keyword_score : ℚ
  combined_score : ℚ
  matched_features : List String
  coverage_summary : String
deriving DecidableEq

/-- `FETCH`: `self.collection.find({"isActive": True})`. -/
def activePolicies (store : List Policy) : List Policy :=
  store.filter (fun p => p.isActive)

/-- A policy together with the `premium_info` attached to it by the
filter loop (line 344). -/
structure PolicyPremium where
  policy : Policy
  premium_info : PremiumInfo

/-- `FILTER` (lines 333-345): keep the active policies whose resolved
premium exists and is within budget. -/
def filteredPolicies (store : List Policy) (user_age : Int) (user_budget : ℚ)
    (user_city policy_category : String) : List PolicyPremium :=
  (activePolicies store).filterMap fun p =>
    match find_applicable_premium p.premiums user_age user_city policy_category with
    | some info =>
      if info.premium_amount ≤ user_budget then some ⟨p, info⟩ else none
    | none => none

/-- `SCORE` for one surviving policy (lines 359-395). -/
def scorePolicy (sim : String → String → ℚ) (user_coverage_requirement : String)
    (pp : PolicyPremium) : Recommendation :=
  let coverage_data := extract_coverage_details pp.policy
  let nlp_score := sim user_coverage_requirement coverage_data.text
  let keyword_match := keyword_matching user_coverage_requirement coverage_data.text
  let combined_score :=
    keyword_match.match_percentage * (0.007 : ℚ) + nlp_score * (0.3 : ℚ)
  { policy_id := pp.policy.id
    policy_name := pp.policy.policyName
    insurer := pp.policy.insurer
    policy_type := pp.policy.policyType
    code := pp.policy.code
    premium := pp.premium_info.premium_amount
    sum_insured := pp.premium_info.sum_insured
    zone := pp.premium_info.zone
    composition := pp.premium_info.composition
    age_bracket := pp.premium_info.age_bracket
    nlp_score := round4 nlp_score
    keyword_score := keyword_match.match_percentage
    combined_score := round4 combined_score
    matched_features := keyword_match.matched_features
    coverage_summary :=
      generate_coverage_summary user_coverage_requirement coverage_data keyword_match }

/-- The scored candidate list before sorting. -/
def scoredRecommendations (sim : String → String → ℚ) (store : List Policy)
    (user_age : Int) (user_budget : ℚ)
    (user_city policy_category user_coverage_requirement : String) :
    List Recommendation :=
  (filteredPolicies store user_age user_budget user_city policy_category).map
    (scorePolicy sim user_coverage_requirement)

/-- The sort order of line 398,
`key=lambda x: (-x['combined_score'], x['premium'])`:
`a` comes no later than `b` iff `a` scores strictly higher, or they
score equally and `a` is no more expensive. -/
def recLE (a b : Recommendation) : Prop :=
  b.combined_score < a.combined_score ∨
    (a.combined_score = b.combined_score ∧ a.premium ≤ b.premium)

instance : DecidableRel recLE := fun a b => by
  unfold recLE; infer_instance

instance : IsTotal Recommendation recLE :=
  ⟨by
    intro a b
    unfold recLE
    rcases lt_trichotomy a.combined_score b.combined_score with h | h | h
    · exact Or.inr (Or.inl h)
    · rcases le_total a.premium b.premium with hp | hp
      · exact Or.inl (Or.inr ⟨h, hp⟩)
      · exact Or.inr (Or.inr ⟨h.symm, hp⟩)
    · exact Or.inl (Or.inl h)⟩

instance : IsTrans Recommendation recLE :=
  ⟨by
    intro a b c hab hbc
    unfold recLE at *
    rcases hab with h1 | ⟨h1, hp1⟩ <;> rcases hbc with h2 | ⟨h2, hp2⟩
    · exact Or.inl (h2.trans h1)
    · exact Or.inl (h2 ▸ h1)
    · exact Or.inl (h1 ▸ h2)
    · exact Or.inr ⟨h1.trans h2, hp1.trans hp2⟩⟩

/-- `SORT` (line 398): stable sort by combined score descending, then
premium ascending. -/
def sortedRecommendations (sim : String → String → ℚ) (store : List Policy)
    (user_age : Int) (user_budget : ℚ)
    (user_city policy_category user_coverage_requirement : String) :
    List Recommendation :=
  List.insertionSort recLE
    (scoredRecommendations sim store user_age user_budget user_city
      policy_category user_coverage_requirement)

/-- `get_recommendations` (lines 312-404): fetch, filter, score,
sort, truncate, with the two early empty returns of lines 328-330 and
349-351. -/
def get_recommendations (sim : String → String → ℚ) (store : List Policy)
    (user_age : Int) (user_budget : ℚ)
    (user_city policy_category user_coverage_requirement : String)
    (top_n : ℕ) : List Recommendation :=
  if (activePolicies store).isEmpty then []
  else if (filteredPolicies store user_age user_budget user_city
      policy_category).isEmpty then []
  else
    (sortedRecommendations sim store user_age user_budget user_city
      policy_category user_coverage_requirement).take top_n

/-! ### Premium resolver over raw dynamic data

The same `find_applicable_premium` loop nest, this time over `Dyn`
documents and inside `Except String`, so that the uncaught Python
exceptions (`AttributeError` from `.lower()` on a non-string,
`TypeError` from iterating a non-iterable or comparing unlike types)
are visible, while the `isinstance` guards and the
`try/except: continue` around the bracket parse are the skips the code
actually performs. -/

/-- `for x in v`: lists iterate their elements, strings their
characters, dicts their keys; anything else raises `TypeError`. -/
def pyIter : Dyn → Except String (List Dyn)
  | .list xs => .ok xs
  | .str s => .ok (s.toList.map (fun c => Dyn.str (String.singleton c)))
  | .dict kvs => .ok (kvs.map (fun kv => Dyn.str kv.1))
  | _ => .error "TypeError: object is not iterable"

/-- `v.lower()`: raises `AttributeError` on a non-string. -/
def pyLower : Dyn → Except String String
  | .str s => .ok (pyLowerStr s)
  | _ => .error "AttributeError: object has no attribute lower"

/-- `a < b` between dynamic values: numbers (ints/bools) and strings
compare, unlike types raise `TypeError`. -/
def pyLt : Dyn → Dyn → Except String Bool
  | .int a, .int b => .ok (decide (a < b))
  | .int a, .bool b => .ok (decide (a < (if b then (1 : Int) else 0)))
  | .bool a, .int b => .ok (decide ((if a then (1 : Int) else 0) < b))
  | .bool a, .bool b => .ok (decide ((if a then (1 : Int) else 0) < (if b then 1 else 0)))
  | .str a, .str b => .ok (decide (a < b))
  | _, _ => .error "TypeError: unsupported operand types for comparison"

/-- `a <= b` between dynamic values, same domain as `pyLt`. -/
def pyLe : Dyn → Dyn → Except String Bool
  | .int a, .int b => .ok (decide (a ≤ b))
  | .int a, .bool b => .ok (decide (a ≤ (if b then (1 : Int) else 0)))
  | .bool a, .int b => .ok (decide ((if a then (1 : Int) else 0) ≤ b))
  | .bool a, .bool b => .ok (decide ((if a then (1 : Int) else 0) ≤ (if b then 1 else 0)))
  | .str a, .str b => .ok (decide (a ≤ b))
  | _, _ => .error "TypeError: unsupported operand types for comparison"

/-- `option.get('type', '') != policy_category`: `==` between a
dynamic value and a string never raises; only an equal string
compares equal. -/
def pyEqStr (d : Dyn) (s : String) : Bool :=
  match d with
  | .str t => t == s
  | _ => false

/-- `d.get(k, dflt)` with no `isinstance` guard: raises
`AttributeError` on a non-dict. -/
def pyGet (d : Dyn) (k : String) (dflt : Dyn) : Except String Dyn :=
  match d with
  | .dict kvs => .ok (match kvs.lookup k with | some v => v | none => dflt)
  | _ => .error "AttributeError: object has no attribute get"

/-- One entry of `best_matches` in the dynamic resolver. -/
structure DynMatch where
  premium_amount : Dyn
  sum_insured : Dyn
  zone : Dyn
  composition : Dyn
  age_bracket : Dyn

/-- The bracket-level loop body (lines 286-305): non-dict brackets
are skipped by `isinstance`, a non-string or unparsable `age` raises
inside the `try` and is skipped by `except: continue`. -/
def bracketEntryDyn (user_age : Int) (sum_insured zone_name composition : Dyn)
    (br : Dyn) : Option DynMatch :=
  if br.isDict then
    let age_str := br.getD "age" (Dyn.str "")
    let premium_amount := br.getD "premiumAmount" (Dyn.int 0)
    match age_str with
    | Dyn.str s =>
      match parse_age_bracket s with
      | some (mn, mx) =>
        if mn ≤ user_age ∧ user_age ≤ mx then
          some ⟨premium_amount, sum_insured, zone_name, composition, age_str⟩
        else none
      | none => none
    | _ => none
  else none

/-- The `premiumOptions` loop (lines 275-305). -/
def optionsCollect (user_age : Int) (policy_category : String)
    (sum_insured zone_name : Dyn) : List Dyn → Except String (List DynMatch)
  | [] => .ok []
  | o :: rest =>
    if o.isDict then
      if pyEqStr (o.getD "type" (Dyn.str "")) policy_category then
        match pyIter (o.getD "ageBrackets" (Dyn.list [])) with
        | .error e => .error e
        | .ok bs =>
          match optionsCollect user_age policy_category sum_insured zone_name rest with
          | .error e => .error e
          | .ok tail =>
            .ok (bs.filterMap
                  (bracketEntryDyn user_age sum_insured zone_name
                    (o.getD "composition" (Dyn.str ""))) ++ tail)
      else optionsCollect user_age policy_category sum_insured zone_name rest
    else optionsCollect user_age policy_category sum_insured zone_name rest

/-- The `premiumChart` loop (lines 268-305). -/
def chartCollect (user_age : Int) (policy_category : String) (zone_name : Dyn) :
    List Dyn → Except String (List DynMatch)
  | [] => .ok []
  | ci :: rest =>
    if ci.isDict then
      match pyIter (ci.getD "premiumOptions" (Dyn.list [])) with
      | .error e => .error e
      | .ok os =>
        match optionsCollect user_age policy_category
            (ci.getD "sumInsured" (Dyn.int 0)) zone_name os with
        | .error e => .error e
        | .ok ms =>
          match chartCollect user_age policy_category zone_name rest with
          | .error e => .error e
          | .ok tail => .ok (ms ++ tail)
    else chartCollect user_age policy_category zone_name rest

/-- The city loop (lines 256-260): `.lower()` is called on each entry
until one matches, so a bad entry after a match is never touched. -/
def cityFoundDyn (user_city_lower : String) : List Dyn → Except String Bool
  | [] => .ok false
  | c :: rest =>
    match pyLower c with
    | .error e => .error e
    | .ok cl =>
      if cl == user_city_lower || substrB user_city_lower cl then .ok true
      else cityFoundDyn user_city_lower rest

/-- The zone loop (lines 251-305). -/
def zonesCollect (user_age : Int) (user_city_lower policy_category : String) :
    List Dyn → Except String (List DynMatch)
  | [] => .ok []
  | z :: rest =>
    if z.isDict then
      match pyIter (z.getD "cities" (Dyn.list [])) with
      | .error e => .error e
      | .ok cs =>
        match cityFoundDyn user_city_lower cs with
        | .error e => .error e
        | .ok found =>
          if found then
            match pyIter (z.getD "premiumChart" (Dyn.list [])) with
            | .error e => .error e
            | .ok cis =>
              match chartCollect user_age policy_category
                  (z.getD "zoneName" (Dyn.str "Unknown")) cis with
              | .error e => .error e
              | .ok ms =>
                match zonesCollect user_age user_city_lower policy_category rest with
                | .error e => .error e
                | .ok tail => .ok (ms ++ tail)
          else zonesCollect user_age user_city_lower policy_category rest
    else zonesCollect user_age user_city_lower policy_category rest

/-- The fold inside `min(best_matches, key=premium_amount)`. -/
def pyMinFold (best : DynMatch) : List DynMatch → Except String DynMatch
  | [] => .ok best
  | y :: ys =>
    match pyLt y.premium_amount best.premium_amount with
    | .error e => .error e
    | .ok lt => pyMinFold (if lt then y else best) ys

/-- `min(best_matches, key=premium_amount)`: raises if two keys of
unlike types get compared. -/
def pyMinByDyn : List DynMatch → Except String (Option DynMatch)
  | [] => .ok none
  | x :: xs =>
    match pyMinFold x xs with
    | .error e => .error e
    | .ok m => .ok (some m)

/-- `find_applicable_premium` over raw dynamic data (lines 244-310). -/
def find_applicable_premium_dyn (premiums : Dyn) (user_age : Int)
    (user_city policy_category : String) : Except String (Option DynMatch) :=
  if !premiums.truthy || !premiums.isList then .ok none
  else
    match pyIter premiums with
    | .error e => .error e
    | .ok zs =>
      match zonesCollect user_age (pyLowerStr user_city) policy_category zs with
      | .error e => .error e
      | .ok ms => pyMinByDyn ms

/-- The `FILTER` loop of `get_recommendations` (lines 333-345) over
raw dynamic policy documents: the resolver runs outside any
`try`, so one raising record aborts the whole pass. -/
def filter_policies_dyn (policies : List Dyn) (user_age : Int) (user_budget : Int)
    (user_city policy_category : String) : Except String (List (Dyn × DynMatch)) :=
  match policies with
  | [] => .ok []
  | p :: rest =>
    match pyGet p "premiums" (Dyn.list []) with
    | .error e => .error e
    | .ok premiums =>
      match find_applicable_premium_dyn premiums user_age user_city policy_category with
      | .error e => .error e
      | .ok none => filter_policies_dyn rest user_age user_budget user_city policy_category
      | .ok (some info) =>
        match pyLe info.premium_amount (Dyn.int user_budget) with
        | .error e => .error e
        | .ok within =>
          match filter_policies_dyn rest user_age user_budget user_city policy_category with
          | .error e => .error e
          | .ok tail => .ok (if within then (p, info) :: tail else tail)

/-! ### Shape predicates for the recovered malformations

`premiumsOK` admits arbitrary missing fields, non-dict entries in the
four dict-carrying lists, and arbitrary (also unparsable) age-bracket
strings; it only insists that iterated fields are iterable, that the
entries of a `cities` list are strings, and that a present
`premiumAmount` is an int. -/

/-- `.lower()` succeeds. -/
def lowerOK (d : Dyn) : Bool :=
  match d with
  | .str _ => true
  | _ => false

/-- `v` iterates without raising and every element satisfies `p`. -/
def iterOK (v : Dyn) (p : Dyn → Bool) : Bool :=
  match pyIter v with
  | .ok xs => xs.all p
  | .error _ => false

/-- A bracket entry the resolver recovers from: anything non-dict, or
a dict whose `premiumAmount` (when present) is an int. -/
def bracketOK (b : Dyn) : Bool :=
  match b with
  | .dict _ =>
    match b.getD "premiumAmount" (Dyn.int 0) with
    | .int _ => true
    | _ => false
  | _ => true

/-- A premium option the resolver recovers from. -/
def optionOK (o : Dyn) : Bool :=
  match o with
  | .dict _ => iterOK (o.getD "ageBrackets" (Dyn.list [])) bracketOK
  | _ => true

/-- A chart tier the resolver recovers from. -/
def chartItemOK (ci : Dyn) : Bool :=
  match ci with
  | .dict _ => iterOK (ci.getD "premiumOptions" (Dyn.list [])) optionOK
  | _ => true

/-- A zone the resolver recovers from: `cities` entries must be
strings, iterated fields must be iterable. -/
def zoneOK (z : Dyn) : Bool :=
  match z with
  | .dict _ =>
    iterOK (z.getD "cities" (Dyn.list [])) lowerOK &&
    iterOK (z.getD "premiumChart" (Dyn.list [])) chartItemOK
  | _ => true

/-- A `premiums` value the resolver recovers from (a non-list hits
the early `return None`). -/
def premiumsOK (premiums : Dyn) : Bool :=
  match premiums with
  | .list zs => zs.all zoneOK
  | _ => true

/-- A policy document the filter loop recovers from. -/
def policyOK (p : Dyn) : Bool :=
  match p with
  | .dict _ => premiumsOK (p.getD "premiums" (Dyn.list []))
  | _ => false

/-- The collected match has an int premium amount (so that `min` and
the budget comparison cannot raise). -/
def matchAmountInt (m : DynMatch) : Bool :=
  match m.premium_amount with
  | .int _ => true
  | _ => false

/-! ### Specification-side definitions

Declarative characterisations, against which the loop nests above are
proved. -/

/-- The applicable premium entries of a table, as the spec describes
them: a zone with a case-insensitive exact-or-substring city match, a
tier, an option whose `type` equals the category case-sensitively, and
a bracket whose parsed range contains the user's age. -/
def IsMatch (premiums : List Zone) (user_age : Int)
    (user_city policy_category : String) (info : PremiumInfo) : Prop :=
  ∃ z ∈ premiums,
    (∃ c ∈ z.cities, city_match user_city c = true) ∧
    ∃ item ∈ z.premiumChart, ∃ opt ∈ item.premiumOptions,
      opt.type = policy_category ∧
      ∃ br ∈ opt.ageBrackets,
        bracket_matches br.age user_age = true ∧
        info = ⟨br.premiumAmount, item.sumInsured, z.zoneName, opt.composition, br.age⟩

/-- The user's text triggers this keyword category. -/
def requestedB (u : String) (e : String × List String) : Bool :=
  e.2.any (fun kw => substrB kw (pyLowerStr u))

/-- The policy text blob triggers this keyword category. -/
def coveredB (c : String) (e : String × List String) : Bool :=
  e.2.any (fun kw => substrB kw (pyLowerStr c))

/-- Number of recognised categories triggered by the user's text. -/
def requestedCount (u : String) : ℕ :=
  (keyword_map.filter (requestedB u)).length

/-- Number of recognised categories triggered by both texts. -/
def matchedCount (u c : String) : ℕ :=
  (keyword_map.filter (fun e => requestedB u e && coveredB c e)).length

/-- The exact (pre-rounding) combined score the engine computes for a
policy (line 370): `match_percentage * 0.007 + nlp_score * 0.3`. -/
def exactCombinedScore (sim : String → String → ℚ) (user_coverage_requirement : String)
    (p : Policy) : ℚ :=
  (keyword_matching user_coverage_requirement (extract_coverage_details p).text).match_percentage
      * (0.007 : ℚ)
    + sim user_coverage_requirement (extract_coverage_details p).text * (0.3 : ℚ)

/-! ### Concrete documents used by the witnesses -/

/-- A one-zone, one-tier premium table: Mumbai, Individual, bracket
18-35 at 8000. -/
def zoneA : Zone :=
  ⟨"Zone A", ["Mumbai"], [⟨500000, [⟨"Individual", "1 Adult", [⟨"18-35", 8000⟩]⟩]⟩]⟩

/-- An active policy with an empty coverage object and the `zoneA`
table. -/
def polA : Policy :=
  ⟨"p1", "Alpha Health", "Alpha", "Health", "ALP", true,
   Dyn.null, Dyn.null, Dyn.null, [zoneA]⟩

/-- A two-zone-free table with two tiers matching a 28-year-old in
(Navi) Mumbai for `Individual`, at 7000 and 5000. -/
def zoneB : Zone :=
  ⟨"Zone B", ["Delhi", "Navi Mumbai"],
   [⟨300000, [⟨"Individual", "1A", [⟨"18-35", 7000⟩, ⟨"36-50", 9000⟩]⟩,
              ⟨"Family", "2A", [⟨"18-35", 12000⟩]⟩]⟩,
    ⟨500000, [⟨"Individual", "1A", [⟨"21+", 5000⟩]⟩]⟩]⟩

/-- The cheapest applicable entry of `zoneB` for (28, Mumbai,
Individual). -/
def infoB : PremiumInfo := ⟨5000, 500000, "Zone B", "1A", "21+"⟩

/-- An active policy whose only bracket costs 99999. -/
def polC : Policy :=
  ⟨"p3", "Gamma Health", "Gamma", "Health", "GAM", true,
   Dyn.null, Dyn.null, Dyn.null,
   [⟨"Zone C", ["Mumbai"], [⟨500000, [⟨"Individual", "1A", [⟨"18-35", 99999⟩]⟩]⟩]⟩]⟩

/-- An inactive copy of `polA` under a different id. -/
def polD : Policy :=
  ⟨"p4", "Delta Health", "Delta", "Health", "DEL", false,
   Dyn.null, Dyn.null, Dyn.null, [zoneA]⟩

/-- A constant similarity collaborator. -/
def simHalf : String → String → ℚ := fun _ _ => 1 / 2

/-- The boilerplate summary the generator emits when the user
requested no recognised headline category. -/
def boilerplateSummary : String :=
  "This policy provides standard health insurance coverage including in-patient hospitalization, pre and post hospitalization expenses, day care procedures, and ambulance services. " ++
  "However, it may not specifically cover the exact features you mentioned. " ++
  "Please review the policy details or consider exploring riders and optional add-ons to customize your coverage."

/-- What the pipeline produces for `polA` under `simHalf` and the
requirement `"zzz"`. -/
def recA : Recommendation :=
  ⟨"p1", "Alpha Health", "Alpha", "Health", "ALP", 8000, 500000,
   "Zone A", "1 Adult", "18-35", 1 / 2, 0, 3 / 20, [], boilerplateSummary⟩

/-- Policy with premium 9000 and a nonempty coverage blob (one
covered special disease, giving the text `"dengue  "`). -/
def polX : Policy :=
  ⟨"px", "Xi Health", "Xi", "Health", "XI", true,
   Dyn.null,
   Dyn.list [Dyn.dict [("diseaseName", Dyn.str "dengue"),
                       ("isCovered", Dyn.bool true)]],
   Dyn.null,
   [⟨"Zone X", ["Mumbai"], [⟨500000, [⟨"Individual", "1A", [⟨"18-35", 9000⟩]⟩]⟩]⟩]⟩

/-- Policy with premium 5000 and an empty coverage blob. -/
def polY : Policy :=
  ⟨"py", "Ypsilon Health", "Ypsilon", "Health", "YPS", true,
   Dyn.null, Dyn.null, Dyn.null,
   [⟨"Zone Y", ["Mumbai"], [⟨500000, [⟨"Individual", "1A", [⟨"18-35", 5000⟩]⟩]⟩]⟩]⟩

/-- A similarity collaborator separating `polX` from `polY` by less
than the 4-decimal rounding resolution on the combined score:
the blobs score `1/5000` and `2/15000`, so the exact combined scores
are `0.00006` and `0.00004`. -/
def simClose : String → String → ℚ :=
  fun _ t => if t = "" then 2 / 15000 else 1 / 5000

/-- A premiums value with a non-string entry in a `cities` list. -/
def badCitiesPremiums : Dyn :=
  Dyn.list [Dyn.dict [("cities", Dyn.list [Dyn.int 123])]]

/-- A well-formed dynamic policy document. -/
def goodPolicyDyn : Dyn :=
  Dyn.dict [("premiums", Dyn.list [Dyn.dict
    [("cities", Dyn.list [Dyn.str "Mumbai"]),
     ("premiumChart", Dyn.list [Dyn.dict
       [("sumInsured", Dyn.int 500000),
        ("premiumOptions", Dyn.list [Dyn.dict
          [("type", Dyn.str "Individual"),
           ("ageBrackets", Dyn.list [Dyn.dict
             [("age", Dyn.str "18-35"), ("premiumAmount", Dyn.int 8000)]])]])]])]])]

/-- A policy document malformed by a bad cities entry. -/
def badPolicyDyn : Dyn :=
  Dyn.dict [("premiums", badCitiesPremiums)]

/-- A table malformed in every way the resolver recovers from:
a non-dict zone entry, a non-dict chart entry, a non-dict option
entry, a missing `sumInsured`, an unparsable age bracket, and a
missing `premiumAmount`. -/
def messyPremiums : Dyn :=
  Dyn.list
    [Dyn.int 7,
     Dyn.dict
       [("cities", Dyn.list [Dyn.str "Mumbai"]),
        ("premiumChart", Dyn.list
          [Dyn.str "junk",
           Dyn.dict
             [("premiumOptions", Dyn.list
               [Dyn.null,
                Dyn.dict
                  [("type", Dyn.str "Individual"),
                   ("ageBrackets", Dyn.list
                     [Dyn.dict [("age", Dyn.str "oops")],
                      Dyn.dict [("age", Dyn.str "18-35"),
                                ("premiumAmount", Dyn.int 8000)]])]])]])]]

/-! ## Theorems -/

set_option maxRecDepth 100000

/-- Sorting the empty candidate list yields the empty list. -/
theorem sortedRecommendations_eq_nil_of_filtered_nil {sim : String → String → ℚ}
    {store : List Policy} {user_age : Int} {user_budget : ℚ}
    {user_city policy_category user_coverage_requirement : String}
    (h : filteredPolicies store user_age user_budget user_city policy_category = []) :
    sortedRecommendations sim store user_age user_budget user_city policy_category
      user_coverage_requirement = [] := by
  unfold sortedRecommendations scoredRecommendations
  rw [h]
  rfl

/-- The two early empty returns are redundant with sort-and-truncate:
the result is always the truncated sorted candidate list. -/
theorem get_recommendations_eq_take (sim : String → String → ℚ) (store : List Policy)
    (user_age : Int) (user_budget : ℚ)
    (user_city policy_category user_coverage_requirement : String) (top_n : ℕ) :
    get_recommendations sim store user_age user_budget user_city policy_category
        user_coverage_requirement top_n =
      (sortedRecommendations sim store user_age user_budget user_city policy_category
        user_coverage_requirement).take top_n := by
  unfold get_recommendations
  by_cases h1 : (activePolicies store).isEmpty
  · have ha := List.isEmpty_iff.mp h1
    have hf : filteredPolicies store user_age user_budget user_city policy_category = [] := by
      unfold filteredPolicies
      rw [ha]
      rfl
    rw [if_pos h1, sortedRecommendations_eq_nil_of_filtered_nil hf]
    simp
  · rw [if_neg h1]
    by_cases h2 : (filteredPolicies store user_age user_budget user_city policy_category).isEmpty
    · rw [if_pos h2,
        sortedRecommendations_eq_nil_of_filtered_nil (List.isEmpty_iff.mp h2)]
      simp
    · rw [if_neg h2]

/-- C1: the returned list satisfies, at every adjacent pair, score
strictly decreasing or score equal with premium non-decreasing; it has
at most `top_n` entries; and it is exactly the first `top_n` entries
of a sorted permutation of the scored candidates. -/
theorem returned_list_sorted_and_truncated (sim : String → String → ℚ)
    (store : List Policy) (user_age : Int) (user_budget : ℚ)
    (user_city policy_category user_coverage_requirement : String) (top_n : ℕ) :
    List.Chain'
      (fun a b => b.combined_score < a.combined_score ∨
        (a.combined_score = b.combined_score ∧ a.premium ≤ b.premium))
      (get_recommendations sim store user_age user_budget user_city policy_category
        user_coverage_requirement top_n) ∧
    (get_recommendations sim store user_age user_budget user_city policy_category
        user_coverage_requirement top_n).length ≤ top_n ∧
    ∃ full,
      full.Perm (scoredRecommendations sim store user_age user_budget user_city
        policy_category user_coverage_requirement) ∧
      List.Sorted recLE full ∧
      get_recommendations sim store user_age user_budget user_city policy_category
        user_coverage_requirement top_n = full.take top_n := by
  rw [get_recommendations_eq_take]
  have hsorted : List.Sorted recLE
      (sortedRecommendations sim store user_age user_budget user_city policy_category
        user_coverage_requirement) :=
    List.sorted_insertionSort recLE _
  refine ⟨?_, ?_, _, List.perm_insertionSort recLE _, hsorted, rfl⟩
  · exact ((hsorted.sublist (List.take_sublist top_n _)).chain')
  · rw [List.length_take]
    exact min_le_left _ _

/-- Membership in the filtered candidate list: exactly the stored
active policies with an affordable resolved premium. -/
theorem mem_filteredPolicies {store : List Policy} {user_age : Int} {user_budget : ℚ}
    {user_city policy_category : String} {pp : PolicyPremium} :
    pp ∈ filteredPolicies store user_age user_budget user_city policy_category ↔
      pp.policy ∈ store ∧ pp.policy.isActive = true ∧
      find_applicable_premium pp.policy.premiums user_age user_city policy_category =
        some pp.premium_info ∧
      pp.premium_info.premium_amount ≤ user_budget := by
  unfold filteredPolicies activePolicies
  rw [List.mem_filterMap]
  constructor
  · rintro ⟨p, hp, hf⟩
    rw [List.mem_filter] at hp
    cases hfind : find_applicable_premium p.premiums user_age user_city policy_category with
    | none =>
      rw [hfind] at hf
      exact absurd hf (by simp)
    | some info =>
      rw [hfind] at hf
      dsimp only at hf
      by_cases hb : info.premium_amount ≤ user_budget
      · rw [if_pos hb] at hf
        obtain rfl : PolicyPremium.mk p info = pp := Option.some.inj hf
        exact ⟨hp.1, hp.2, hfind, hb⟩
      · rw [if_neg hb] at hf
        exact absurd hf (by simp)
  · rintro ⟨hmem, hact, hfind, hb⟩
    refine ⟨pp.policy, List.mem_filter.mpr ⟨hmem, hact⟩, ?_⟩
    rw [hfind]
    dsimp only
    rw [if_pos hb]

/-- Every returned recommendation is the score of some filtered
candidate. -/
theorem mem_scored_of_mem_get_recommendations {sim : String → String → ℚ}
    {store : List Policy} {user_age : Int} {user_budget : ℚ}
    {user_city policy_category user_coverage_requirement : String} {top_n : ℕ}
    {r : Recommendation}
    (hr : r ∈ get_recommendations sim store user_age user_budget user_city
      policy_category user_coverage_requirement top_n) :
    ∃ pp ∈ filteredPolicies store user_age user_budget user_city policy_category,
      r = scorePolicy sim user_coverage_requirement pp := by
  rw [get_recommendations_eq_take] at hr
  have h2 : r ∈ sortedRecommendations sim store user_age user_budget user_city
      policy_category user_coverage_requirement := List.mem_of_mem_take hr
  unfold sortedRecommendations at h2
  rw [(List.perm_insertionSort recLE _).mem_iff] at h2
  unfold scoredRecommendations at h2
  rw [List.mem_map] at h2
  obtain ⟨pp, hpp, he⟩ := h2
  exact ⟨pp, hpp, he.symm⟩

/-- C6: every returned recommendation's premium is within the user's
budget. -/
theorem returned_premium_within_budget (sim : String → String → ℚ)
    (store : List Policy) (user_age : Int) (user_budget : ℚ)
    (user_city policy_category user_coverage_requirement : String) (top_n : ℕ) :
    ∀ r ∈ get_recommendations sim store user_age user_budget user_city
      policy_category user_coverage_requirement top_n,
      r.premium ≤ user_budget := by
  intro r hr
  obtain ⟨pp, hpp, he⟩ := mem_scored_of_mem_get_recommendations hr
  rw [mem_filteredPolicies] at hpp
  rw [he]
  exact hpp.2.2.2

/-- C6 witness: a concrete run returns `recA`, priced 8000 within the
15000 budget. -/
theorem returned_premium_within_budget_witness : recA.premium ≤ (15000 : ℚ) :=
  returned_premium_within_budget simHalf [polA] 28 15000 "Mumbai" "Individual"
    "zzz" 5 recA (by decide)

/-- C7: every returned recommendation is built from a stored policy
whose `isActive` flag is true (with its resolved premium), so an
inactive policy never appears in the output. -/
theorem only_active_policies_recommended (sim : String → String → ℚ)
    (store : List Policy) (user_age : Int) (user_budget : ℚ)
    (user_city policy_category user_coverage_requirement : String) (top_n : ℕ) :
    ∀ r ∈ get_recommendations sim store user_age user_budget user_city
      policy_category user_coverage_requirement top_n,
      ∃ p ∈ store, p.isActive = true ∧
        ∃ info, find_applicable_premium p.premiums user_age user_city policy_category =
            some info ∧
          info.premium_amount ≤ user_budget ∧
          r = scorePolicy sim user_coverage_requirement ⟨p, info⟩ := by
  intro r hr
  obtain ⟨pp, hpp, he⟩ := mem_scored_of_mem_get_recommendations hr
  rw [mem_filteredPolicies] at hpp
  exact ⟨pp.policy, hpp.1, hpp.2.1, pp.premium_info, hpp.2.2.1, hpp.2.2.2, he⟩

/-- C7 witness: with an inactive twin (`polD`) in the store, the only
returned entry is built from the active `polA`. -/
theorem only_active_policies_recommended_witness :
    ∃ p ∈ [polA, polD], p.isActive = true ∧
      ∃ info, find_applicable_premium p.premiums 28 "Mumbai" "Individual" = some info ∧
        info.premium_amount ≤ (15000 : ℚ) ∧
        recA = scorePolicy simHalf "zzz" ⟨p, info⟩ :=
  only_active_policies_recommended simHalf [polA, polD] 28 15000 "Mumbai"
    "Individual" "zzz" 5 recA (by decide)

/-- C9: an empty store of active policies, or a store in which no
active policy resolves to a premium within budget, yields the empty
recommendation list. -/
theorem empty_results_are_normal (sim : String → String → ℚ)
    (store : List Policy) (user_age : Int) (user_budget : ℚ)
    (user_city policy_category user_coverage_requirement : String) (top_n : ℕ) :
    (activePolicies store = [] →
      get_recommendations sim store user_age user_budget user_city policy_category
        user_coverage_requirement top_n = []) ∧
    ((∀ p ∈ activePolicies store,
        (find_applicable_premium p.premiums user_age user_city policy_category).all
          (fun info => decide (user_budget < info.premium_amount)) = true) →
      get_recommendations sim store user_age user_budget user_city policy_category
        user_coverage_requirement top_n = []) := by
  constructor
  · intro ha
    have hf : filteredPolicies store user_age user_budget user_city policy_category = [] := by
      unfold filteredPolicies
      rw [ha]
      rfl
    rw [get_recommendations_eq_take, sortedRecommendations_eq_nil_of_filtered_nil hf]
    simp
  · intro h
    have hf : filteredPolicies store user_age user_budget user_city policy_category = [] := by
      unfold filteredPolicies
      rw [List.filterMap_eq_nil_iff]
      intro p hp
      have hh := h p hp
      cases hfind : find_applicable_premium p.premiums user_age user_city policy_category with
      | none => rfl
      | some info =>
        rw [hfind] at hh
        simp only [Option.all_some, decide_eq_true_eq] at hh
        dsimp only
        rw [if_neg (not_le.mpr hh)]
    rw [get_recommendations_eq_take, sortedRecommendations_eq_nil_of_filtered_nil hf]
    simp

/-- C9 witness: a store whose only active policy costs 99999, over a
15000 budget, returns the empty list. -/
theorem empty_results_are_normal_witness :
    get_recommendations simHalf [polC] 28 15000 "Mumbai" "Individual" "zzz" 5 = [] :=
  (empty_results_are_normal simHalf [polC] 28 15000 "Mumbai" "Individual"
    "zzz" 5).2 (by decide)

/-- C4: the combined score of every returned recommendation is
exactly `keyword_score * 0.007 + semantic_score * 0.3` (stored rounded
to 4 decimals), with `keyword_score` the keyword match percentage and
the semantic score the similarity of the user text and the policy
blob. -/
theorem combined_score_exact_formula (sim : String → String → ℚ)
    (store : List Policy) (user_age : Int) (user_budget : ℚ)
    (user_city policy_category user_coverage_requirement : String) (top_n : ℕ) :
    ∀ r ∈ get_recommendations sim store user_age user_budget user_city
      policy_category user_coverage_requirement top_n,
      ∃ pp ∈ filteredPolicies store user_age user_budget user_city policy_category,
        r.keyword_score =
          (keyword_matching user_coverage_requirement
            (extract_coverage_details pp.policy).text).match_percentage ∧
        r.nlp_score =
          round4 (sim user_coverage_requirement (extract_coverage_details pp.policy).text) ∧
        r.combined_score =
          round4 (r.keyword_score * (0.007 : ℚ) +
            sim user_coverage_requirement (extract_coverage_details pp.policy).text
              * (0.3 : ℚ)) ∧
        r.combined_score = round4 (exactCombinedScore sim user_coverage_requirement pp.policy) := by
  intro r hr
  obtain ⟨pp, hpp, he⟩ := mem_scored_of_mem_get_recommendations hr
  subst he
  exact ⟨pp, hpp, rfl, rfl, rfl, rfl⟩

/-- C4 witness: the formula instantiated on a concrete run. -/
theorem combined_score_exact_formula_witness :
    ∃ pp ∈ filteredPolicies [polA] 28 15000 "Mumbai" "Individual",
      recA.keyword_score =
        (keyword_matching "zzz" (extract_coverage_details pp.policy).text).match_percentage ∧
      recA.nlp_score = round4 (simHalf "zzz" (extract_coverage_details pp.policy).text) ∧
      recA.combined_score =
        round4 (recA.keyword_score * (0.007 : ℚ) +
          simHalf "zzz" (extract_coverage_details pp.policy).text * (0.3 : ℚ)) ∧
      recA.combined_score = round4 (exactCombinedScore simHalf "zzz" pp.policy) :=
  combined_score_exact_formula simHalf [polA] 28 15000 "Mumbai" "Individual"
    "zzz" 5 recA (by decide)

/-- The bracket loop body succeeds exactly on brackets whose parsed
range contains the age, and then yields the expected match record. -/
theorem bracketEntry_eq_some_iff {user_age : Int} {sum_insured : ℚ}
    {zone_name composition : String} {br : AgeBracketRow} {info : PremiumInfo} :
    bracketEntry user_age sum_insured zone_name composition br = some info ↔
      bracket_matches br.age user_age = true ∧
      info = ⟨br.premiumAmount, sum_insured, zone_name, composition, br.age⟩ := by
  unfold bracketEntry bracket_matches
  cases parse_age_bracket br.age with
  | none => simp
  | some mm =>
    obtain ⟨mn, mx⟩ := mm
    dsimp only
    by_cases h : mn ≤ user_age ∧ user_age ≤ mx
    · rw [if_pos h]
      simp only [decide_eq_true_eq]
      constructor
      · intro e
        exact ⟨h, (Option.some.inj e).symm⟩
      · rintro ⟨-, rfl⟩
        rfl
    · rw [if_neg h]
      simp only [decide_eq_true_eq]
      constructor
      · intro e
        exact absurd e (by simp)
      · rintro ⟨hh, -⟩
        exact absurd hh h

/-- The `best_matches` list contains exactly the applicable entries. -/
theorem mem_collect_matches {premiums : List Zone} {user_age : Int}
    {user_city policy_category : String} {info : PremiumInfo} :
    info ∈ collect_matches premiums user_age user_city policy_category ↔
      IsMatch premiums user_age user_city policy_category info := by
  unfold collect_matches IsMatch
  rw [List.mem_flatMap]
  constructor
  · rintro ⟨z, hz, hrest⟩
    refine ⟨z, hz, ?_⟩
    by_cases hc : z.cities.any (city_match user_city) = true
    · rw [if_pos hc, List.mem_flatMap] at hrest
      obtain ⟨item, hitem, hrest2⟩ := hrest
      rw [List.mem_flatMap] at hrest2
      obtain ⟨opt, hopt, hrest3⟩ := hrest2
      by_cases ht : opt.type = policy_category
      · rw [if_pos ht, List.mem_filterMap] at hrest3
        obtain ⟨br, hbr, hbe⟩ := hrest3
        rw [bracketEntry_eq_some_iff] at hbe
        exact ⟨List.any_eq_true.mp hc, item, hitem, opt, hopt, ht, br, hbr,
          hbe.1, hbe.2⟩
      · rw [if_neg ht] at hrest3
        exact absurd hrest3 (List.not_mem_nil info)
    · rw [if_neg hc] at hrest
      exact absurd hrest (List.not_mem_nil info)
  · rintro ⟨z, hz, hcity, item, hitem, opt, hopt, ht, br, hbr, hbm, hinfo⟩
    refine ⟨z, hz, ?_⟩
    rw [if_pos (List.any_eq_true.mpr hcity), List.mem_flatMap]
    refine ⟨item, hitem, ?_⟩
    rw [List.mem_flatMap]
    refine ⟨opt, hopt, ?_⟩
    rw [if_pos ht, List.mem_filterMap]
    exact ⟨br, hbr, bracketEntry_eq_some_iff.mpr ⟨hbm, hinfo⟩⟩

/-- The fold inside Python `min(_, key=premium_amount)` keeps an
element of the candidates that is no more expensive than any of them. -/
theorem minFold_spec (xs : List PremiumInfo) :
    ∀ b : PremiumInfo,
      (xs.foldl (fun best y =>
          if y.premium_amount < best.premium_amount then y else best) b = b ∨
       xs.foldl (fun best y =>
          if y.premium_amount < best.premium_amount then y else best) b ∈ xs) ∧
      (xs.foldl (fun best y =>
          if y.premium_amount < best.premium_amount then y else best) b).premium_amount
        ≤ b.premium_amount ∧
      ∀ y ∈ xs,
        (xs.foldl (fun best y =>
          if y.premium_amount < best.premium_amount then y else best) b).premium_amount
          ≤ y.premium_amount := by
  induction xs with
  | nil => exact fun b => ⟨Or.inl rfl, le_refl _, by simp⟩
  | cons x xs ih =>
    intro b
    rw [List.foldl_cons]
    by_cases h : x.premium_amount < b.premium_amount
    · rw [if_pos h]
      obtain ⟨hmem, hle, hall⟩ := ih x
      refine ⟨?_, hle.trans h.le, ?_⟩
      · rcases hmem with h1 | h1
        · exact Or.inr (by rw [h1]; exact List.mem_cons_self x xs)
        · exact Or.inr (List.mem_cons_of_mem x h1)
      · intro y hy
        rcases List.mem_cons.mp hy with rfl | hy
        · exact hle
        · exact hall y hy
    · rw [if_neg h]
      obtain ⟨hmem, hle, hall⟩ := ih b
      refine ⟨?_, hle, ?_⟩
      · rcases hmem with h1 | h1
        · exact Or.inl h1
        · exact Or.inr (List.mem_cons_of_mem x h1)
      · intro y hy
        rcases List.mem_cons.mp hy with rfl | hy
        · exact hle.trans (not_lt.mp h)
        · exact hall y hy

/-- `min` over a nonempty candidate list returns a member attaining
the least premium; over an empty list there is nothing. -/
theorem pyMinByPremium_spec {l : List PremiumInfo} {x : PremiumInfo}
    (h : pyMinByPremium l = some x) :
    x ∈ l ∧ ∀ y ∈ l, x.premium_amount ≤ y.premium_amount := by
  cases l with
  | nil => exact absurd h (by simp [pyMinByPremium])
  | cons a as =>
    unfold pyMinByPremium at h
    obtain rfl := Option.some.inj h
    obtain ⟨hmem, hle, hall⟩ := minFold_spec as a
    constructor
    · rcases hmem with h1 | h1
      · rw [h1]
        exact List.mem_cons_self a as
      · exact List.mem_cons_of_mem a h1
    · intro y hy
      rcases List.mem_cons.mp hy with rfl | hy
      · exact hle
      · exact hall y hy

/-- `min` yields nothing exactly on the empty candidate list. -/
theorem pyMinByPremium_eq_none {l : List PremiumInfo} :
    pyMinByPremium l = none ↔ l = [] := by
  cases l <;> simp [pyMinByPremium]

/-- C2: the premium resolver considers exactly the zone entries with
a case-insensitive exact-or-substring city match, category equal
case-sensitively, and a parsed age bracket containing the user's age;
it returns a cheapest such entry, none when there is none, and every
returned recommendation is the score of a stored policy together with
its resolved premium entry — so a policy resolving to none is excluded
from the ranking entirely, never scored as zero. -/
theorem premium_resolver_characterisation (premiums : List Zone) (user_age : Int)
    (user_city policy_category : String) :
    (find_applicable_premium premiums user_age user_city policy_category = none ↔
      ∀ info, ¬ IsMatch premiums user_age user_city policy_category info) ∧
    (∀ info,
      find_applicable_premium premiums user_age user_city policy_category = some info →
        IsMatch premiums user_age user_city policy_category info ∧
        ∀ j, IsMatch premiums user_age user_city policy_category j →
          info.premium_amount ≤ j.premium_amount) ∧
    (∀ (sim : String → String → ℚ) (store : List Policy) (user_budget : ℚ)
        (user_coverage_requirement : String) (top_n : ℕ) (r : Recommendation),
      r ∈ get_recommendations sim store user_age user_budget user_city
        policy_category user_coverage_requirement top_n →
      ∃ p ∈ store, ∃ info,
        find_applicable_premium p.premiums user_age user_city policy_category =
          some info ∧
        r = scorePolicy sim user_coverage_requirement ⟨p, info⟩) := by
  refine ⟨?_, ?_, ?_⟩
  · unfold find_applicable_premium
    rw [pyMinByPremium_eq_none, List.eq_nil_iff_forall_not_mem]
    exact forall_congr' fun info => not_congr mem_collect_matches
  · intro info hf
    unfold find_applicable_premium at hf
    obtain ⟨hmem, hall⟩ := pyMinByPremium_spec hf
    exact ⟨mem_collect_matches.mp hmem,
      fun j hj => hall j (mem_collect_matches.mpr hj)⟩
  · intro sim store user_budget user_coverage_requirement top_n r hr
    obtain ⟨pp, hpp, he⟩ := mem_scored_of_mem_get_recommendations hr
    rw [mem_filteredPolicies] at hpp
    exact ⟨pp.policy, hpp.1, pp.premium_info, hpp.2.2.1, he⟩

/-- C2 witness: on a two-tier table matching a 28-year-old in Mumbai
for `Individual` at 7000 and 5000, the resolver's result is an
applicable entry that is cheapest among all applicable entries. -/
theorem premium_resolver_characterisation_witness :
    IsMatch [zoneB] 28 "Mumbai" "Individual" infoB ∧
    ∀ j, IsMatch [zoneB] 28 "Mumbai" "Individual" j →
      infoB.premium_amount ≤ j.premium_amount :=
  (premium_resolver_characterisation [zoneB] 28 "Mumbai" "Individual").2.1
    infoB (by decide)

/-- C3 counterexample: `"65+"` parses to the capped range `(65, 999)`,
so age 1000 — which is `≥ 65` — does not match, refuting
"matches exactly the ages `≥ N`". -/
theorem age_bracket_plus_cap_counterexample :
    parse_age_bracket "65+" = some (65, 999) ∧ (65 : Int) ≤ 1000 ∧
    bracket_matches "65+" 1000 = false := by decide

/-- C3 amended: `"N+"` matches exactly the ages in `[N, 999]` (999 is
the implementation's stand-in for "no upper bound"), `"A-B"` matches
exactly `[A, B]`, and a plain `"N"` matches exactly the age `N`. -/
theorem age_bracket_parsing_amended :
    (∀ (s : String) (n : Int), pyContainsChar s (Char.ofNat 43) = true →
      pyInt (pyStrip (pyReplaceChar s (Char.ofNat 43) "")) = some n →
      ∀ age : Int, (bracket_matches s age = true ↔ n ≤ age ∧ age ≤ 999)) ∧
    (∀ (s p0 p1 : String) (rest : List String) (a b : Int),
      pyContainsChar s (Char.ofNat 43) = false →
      pyContainsChar s (Char.ofNat 45) = true →
      pySplitOnChar s (Char.ofNat 45) = p0 :: p1 :: rest →
      pyInt (pyStrip p0) = some a → pyInt (pyStrip p1) = some b →
      ∀ age : Int, (bracket_matches s age = true ↔ a ≤ age ∧ age ≤ b)) ∧
    (∀ (s : String) (n : Int), pyContainsChar s (Char.ofNat 43) = false →
      pyContainsChar s (Char.ofNat 45) = false →
      pyInt (pyStrip s) = some n →
      ∀ age : Int, (bracket_matches s age = true ↔ age = n)) := by
  refine ⟨?_, ?_, ?_⟩
  · intro s n h1 h2 age
    have hp : parse_age_bracket s = some (n, 999) := by
      unfold parse_age_bracket
      rw [if_pos h1, h2]
      rfl
    unfold bracket_matches
    rw [hp]
    simp
  · intro s p0 p1 rest a b h1 h2 h3 h4 h5 age
    have hp : parse_age_bracket s = some (a, b) := by
      unfold parse_age_bracket
      rw [if_neg (by simp [h1]), if_pos h2, h3]
      dsimp only
      rw [h4, h5]
    unfold bracket_matches
    rw [hp]
    simp
  · intro s n h1 h2 h3 age
    have hp : parse_age_bracket s = some (n, n) := by
      unfold parse_age_bracket
      rw [if_neg (by simp [h1]), if_neg (by simp [h2]), h3]
      rfl
    unfold bracket_matches
    rw [hp]
    simp only [decide_eq_true_eq]
    omega

/-- C3 amended witness: the three forms at concrete inputs. -/
theorem age_bracket_parsing_amended_witness :
    bracket_matches "65+" 70 = true ∧ bracket_matches "18-35" 35 = true ∧
    bracket_matches "30" 30 = true :=
  ⟨(age_bracket_parsing_amended.1 "65+" 65 (by decide) (by decide) 70).mpr
      (by decide),
   (age_bracket_parsing_amended.2.1 "18-35" "18" "35" [] 18 35 (by decide)
      (by decide) (by decide) (by decide) (by decide) 35).mpr (by decide),
   (age_bracket_parsing_amended.2.2 "30" 30 (by decide) (by decide)
      (by decide) 30).mpr (by decide)⟩

/-- The keyword loop counts exactly the requested and the
requested-and-covered categories, in table order. -/
theorem keyword_fold_spec (u c : String) (L : List (String × List String)) :
    ∀ acc : List String × ℕ × ℕ,
      L.foldl
        (fun (acc : List String × ℕ × ℕ) e =>
          if e.2.any (fun kw => substrB kw u) then
            if e.2.any (fun kw => substrB kw c) then
              (acc.1 ++ [e.1], acc.2.1 + 1, acc.2.2 + 1)
            else
              (acc.1, acc.2.1, acc.2.2 + 1)
          else acc) acc =
      (acc.1 ++
        (L.filter (fun e => (e.2.any fun kw => substrB kw u) &&
          (e.2.any fun kw => substrB kw c))).map Prod.fst,
       acc.2.1 +
        (L.filter (fun e => (e.2.any fun kw => substrB kw u) &&
          (e.2.any fun kw => substrB kw c))).length,
       acc.2.2 + (L.filter (fun e => e.2.any fun kw => substrB kw u)).length) := by
  induction L with
  | nil => simp
  | cons e L ih =>
    intro acc
    rw [List.foldl_cons]
    by_cases h1 : e.2.any (fun kw => substrB kw u) = true
    · by_cases h2 : e.2.any (fun kw => substrB kw c) = true
      · rw [if_pos h1, if_pos h2, ih,
          @List.filter_cons_of_pos _
            (fun e => (e.2.any fun kw => substrB kw u) && (e.2.any fun kw => substrB kw c))
            e L (by rw [Bool.and_eq_true]; exact ⟨h1, h2⟩),
          @List.filter_cons_of_pos _
            (fun e => e.2.any fun kw => substrB kw u) e L h1]
        refine Prod.ext ?_ (Prod.ext ?_ ?_) <;> dsimp only
        · rw [List.map_cons, List.append_assoc]
          rfl
        · rw [List.length_cons]
          omega
        · rw [List.length_cons]
          omega
      · rw [if_pos h1, if_neg h2, ih,
          @List.filter_cons_of_neg _
            (fun e => (e.2.any fun kw => substrB kw u) && (e.2.any fun kw => substrB kw c))
            e L (by rw [Bool.and_eq_true]; rintro ⟨-, hc⟩; exact h2 hc),
          @List.filter_cons_of_pos _
            (fun e => e.2.any fun kw => substrB kw u) e L h1]
        refine Prod.ext rfl (Prod.ext rfl ?_)
        dsimp only
        rw [List.length_cons]
        omega
    · rw [if_neg h1, ih,
        @List.filter_cons_of_neg _
          (fun e => (e.2.any fun kw => substrB kw u) && (e.2.any fun kw => substrB kw c))
          e L (by rw [Bool.and_eq_true]; rintro ⟨hu, -⟩; exact h1 hu),
        @List.filter_cons_of_neg _
          (fun e => e.2.any fun kw => substrB kw u) e L h1]

/-- C5: the keyword score is the number of requested-and-covered
categories over the number of requested categories, times 100; it is
0 when nothing recognised is requested, and always lies in [0, 100]. -/
theorem keyword_score_ratio_and_bounds (u c : String) :
    (keyword_matching u c).total_keywords = requestedCount u ∧
    (keyword_matching u c).keyword_score = matchedCount u c ∧
    (keyword_matching u c).match_percentage =
      (if requestedCount u = 0 then 0
       else (matchedCount u c : ℚ) / (requestedCount u : ℚ) * 100) ∧
    (requestedCount u = 0 → (keyword_matching u c).match_percentage = 0) ∧
    0 ≤ (keyword_matching u c).match_percentage ∧
    (keyword_matching u c).match_percentage ≤ 100 := by
  have hfold := keyword_fold_spec (pyLowerStr u) (pyLowerStr c) keyword_map ([], 0, 0)
  have htot : (keyword_matching u c).total_keywords = requestedCount u := by
    unfold keyword_matching requestedCount requestedB
    dsimp only
    rw [hfold]
    simp
  have hsc : (keyword_matching u c).keyword_score = matchedCount u c := by
    unfold keyword_matching matchedCount requestedB coveredB
    dsimp only
    rw [hfold]
    simp
  have hmr : matchedCount u c ≤ requestedCount u := by
    unfold matchedCount requestedCount
    rw [← List.countP_eq_length_filter, ← List.countP_eq_length_filter]
    refine List.countP_mono_left fun e _ h => ?_
    rw [Bool.and_eq_true] at h
    exact h.1
  have hform : (keyword_matching u c).match_percentage =
      (if (keyword_matching u c).total_keywords > 0 then
        ((keyword_matching u c).keyword_score : ℚ) /
          ((keyword_matching u c).total_keywords : ℚ) * 100
       else 0) := rfl
  have hpct : (keyword_matching u c).match_percentage =
      (if requestedCount u = 0 then 0
       else (matchedCount u c : ℚ) / (requestedCount u : ℚ) * 100) := by
    rw [hform, htot, hsc]
    by_cases h : requestedCount u = 0
    · simp [h]
    · rw [if_pos (Nat.pos_of_ne_zero h), if_neg h]
  refine ⟨htot, hsc, hpct, ?_, ?_, ?_⟩
  · intro h
    rw [hpct, if_pos h]
  · rw [hpct]
    by_cases h : requestedCount u = 0
    · rw [if_pos h]
    · rw [if_neg h]
      positivity
  · rw [hpct]
    by_cases h : requestedCount u = 0
    · rw [if_pos h]
      norm_num
    · rw [if_neg h]
      have hr0 : (0 : ℚ) < (requestedCount u : ℚ) := by
        exact_mod_cast Nat.pos_of_ne_zero h
      have hdiv : (matchedCount u c : ℚ) / (requestedCount u : ℚ) ≤ 1 := by
        rw [div_le_one hr0]
        exact_mod_cast hmr
      calc (matchedCount u c : ℚ) / (requestedCount u : ℚ) * 100
          ≤ 1 * 100 := by
            exact mul_le_mul_of_nonneg_right hdiv (by norm_num)
        _ = 100 := one_mul 100

/-- C5 witness: a requirement triggering no recognised category
scores 0. -/
theorem keyword_score_ratio_and_bounds_witness :
    (keyword_matching "zzz" "cancer").match_percentage = 0 :=
  (keyword_score_ratio_and_bounds "zzz" "cancer").2.2.2.1 (by decide)

/-- C10 counterexample: two candidates whose exact combined scores
differ by `0.00002 < 0.0001` (premiums 9000 and 5000) do not tie:
they round apart, and the pricier one is returned first. -/
theorem near_tied_scores_not_premium_ordered :
    (exactCombinedScore simClose "zzz" polX - exactCombinedScore simClose "zzz" polY
        < 1 / 10000 ∧
     exactCombinedScore simClose "zzz" polY - exactCombinedScore simClose "zzz" polX
        < 1 / 10000) ∧
    (get_recommendations simClose [polX, polY] 28 15000 "Mumbai" "Individual"
        "zzz" 5).map (fun r => r.premium) = [9000, 5000] ∧
    ¬ ((9000 : ℚ) ≤ 5000) := by decide

/-- C10 amended: the `nlp_score` and `combined_score` fields are the
exact scores rounded (half-to-even) to 4 decimals, and the sort runs
on the rounded combined score: candidates whose ROUNDED combined
scores are equal are ordered by premium ascending. -/
theorem rounded_scores_drive_sort (sim : String → String → ℚ)
    (store : List Policy) (user_age : Int) (user_budget : ℚ)
    (user_city policy_category user_coverage_requirement : String) (top_n : ℕ) :
    (∀ r ∈ get_recommendations sim store user_age user_budget user_city
      policy_category user_coverage_requirement top_n,
      ∃ pp ∈ filteredPolicies store user_age user_budget user_city policy_category,
        r.nlp_score = round4 (sim user_coverage_requirement
          (extract_coverage_details pp.policy).text) ∧
        r.combined_score =
          round4 (exactCombinedScore sim user_coverage_requirement pp.policy)) ∧
    List.Chain' (fun a b => a.combined_score = b.combined_score → a.premium ≤ b.premium)
      (get_recommendations sim store user_age user_budget user_city policy_category
        user_coverage_requirement top_n) := by
  constructor
  · intro r hr
    obtain ⟨pp, hpp, he⟩ := mem_scored_of_mem_get_recommendations hr
    subst he
    exact ⟨pp, hpp, rfl, rfl⟩
  · rw [get_recommendations_eq_take]
    have hsorted : List.Sorted recLE
        (sortedRecommendations sim store user_age user_budget user_city
          policy_category user_coverage_requirement) :=
      List.sorted_insertionSort recLE _
    have hp := hsorted.sublist (List.take_sublist top_n _)
    refine (hp.imp ?_).chain'
    intro a b hab
    intro heq
    rcases hab with h | ⟨-, hpr⟩
    · rw [heq] at h
      exact absurd h (lt_irrefl _)
    · exact hpr

/-- C10 amended witness: the rounded-score fields on a concrete run. -/
theorem rounded_scores_drive_sort_witness :
    ∃ pp ∈ filteredPolicies [polA] 28 15000 "Mumbai" "Individual",
      recA.nlp_score = round4 (simHalf "zzz" (extract_coverage_details pp.policy).text) ∧
      recA.combined_score = round4 (exactCombinedScore simHalf "zzz" pp.policy) :=
  (rounded_scores_drive_sort simHalf [polA] 28 15000 "Mumbai" "Individual"
    "zzz" 5).1 recA (by decide)

/-! ### Robustness of the dynamic resolver (C8) -/

/-- Unpack a successful `iterOK`. -/
theorem iterOK_eq_true {v : Dyn} {p : Dyn → Bool} (h : iterOK v p = true) :
    ∃ xs, pyIter v = .ok xs ∧ xs.all p = true := by
  unfold iterOK at h
  cases hv : pyIter v with
  | ok xs =>
    rw [hv] at h
    exact ⟨xs, rfl, h⟩
  | error e =>
    rw [hv] at h
    exact absurd h (by simp)

/-- A match produced from a well-shaped bracket carries an int
premium amount. -/
theorem bracketEntryDyn_amount_int {user_age : Int} {si zn comp br : Dyn}
    {m : DynMatch} (hok : bracketOK br = true)
    (h : bracketEntryDyn user_age si zn comp br = some m) :
    matchAmountInt m = true := by
  unfold bracketEntryDyn at h
  unfold bracketOK at hok
  cases br with
  | dict kvs =>
    rw [if_pos (show (Dyn.dict kvs).isDict = true from rfl)] at h
    cases hage : Dyn.getD (Dyn.dict kvs) "age" (Dyn.str "") with
    | str s =>
      rw [hage] at h
      dsimp only at h
      cases hpb : parse_age_bracket s with
      | none =>
        rw [hpb] at h
        exact absurd h (by simp)
      | some mm =>
        obtain ⟨mn, mx⟩ := mm
        rw [hpb] at h
        dsimp only at h
        by_cases hin : mn ≤ user_age ∧ user_age ≤ mx
        · rw [if_pos hin] at h
          obtain rfl := Option.some.inj h
          unfold matchAmountInt
          dsimp only
          cases hpa : Dyn.getD (Dyn.dict kvs) "premiumAmount" (Dyn.int 0) with
          | int n => rfl
          | str s2 => rw [hpa] at hok; exact absurd hok (by simp)
          | bool b2 => rw [hpa] at hok; exact absurd hok (by simp)
          | null => rw [hpa] at hok; exact absurd hok (by simp)
          | list xs => rw [hpa] at hok; exact absurd hok (by simp)
          | dict kvs2 => rw [hpa] at hok; exact absurd hok (by simp)
        · rw [if_neg hin] at h
          exact absurd h (by simp)
    | int n => rw [hage] at h; exact absurd h (by simp)
    | bool b => rw [hage] at h; exact absurd h (by simp)
    | null => rw [hage] at h; exact absurd h (by simp)
    | list xs => rw [hage] at h; exact absurd h (by simp)
    | dict kvs2 => rw [hage] at h; exact absurd h (by simp)
  | str s => exact absurd h (by simp [Dyn.isDict])
  | int n => exact absurd h (by simp [Dyn.isDict])
  | bool b => exact absurd h (by simp [Dyn.isDict])
  | null => exact absurd h (by simp [Dyn.isDict])
  | list xs => exact absurd h (by simp [Dyn.isDict])

/-- All matches collected from well-shaped brackets carry int
amounts. -/
theorem bracketsCollect_int {user_age : Int} {si zn comp : Dyn} {bs : List Dyn}
    (h : bs.all bracketOK = true) :
    (bs.filterMap (bracketEntryDyn user_age si zn comp)).all matchAmountInt = true := by
  rw [List.all_eq_true] at h ⊢
  intro m hm
  rw [List.mem_filterMap] at hm
  obtain ⟨br, hbr, he⟩ := hm
  exact bracketEntryDyn_amount_int (h br hbr) he

/-- The option loop succeeds on well-shaped options. -/
theorem optionsCollect_ok {user_age : Int} {cat : String} {si zn : Dyn}
    {os : List Dyn} (h : os.all optionOK = true) :
    ∃ ms, optionsCollect user_age cat si zn os = .ok ms ∧
      ms.all matchAmountInt = true := by
  induction os with
  | nil => exact ⟨[], rfl, rfl⟩
  | cons o rest ih =>
    rw [List.all_cons, Bool.and_eq_true] at h
    obtain ⟨tail, htail, htint⟩ := ih h.2
    have ho := h.1
    unfold optionsCollect
    cases o with
    | dict kvs =>
      unfold optionOK at ho
      rw [if_pos (show (Dyn.dict kvs).isDict = true from rfl)]
      by_cases ht : pyEqStr (Dyn.getD (Dyn.dict kvs) "type" (Dyn.str "")) cat = true
      · rw [if_pos ht]
        obtain ⟨bs, hbs, hbsok⟩ := iterOK_eq_true ho
        rw [hbs]
        dsimp only
        rw [htail]
        refine ⟨_, rfl, ?_⟩
        rw [List.all_append, Bool.and_eq_true]
        exact ⟨bracketsCollect_int hbsok, htint⟩
      · rw [if_neg ht]
        exact ⟨tail, htail, htint⟩
    | str s => rw [if_neg (by simp [Dyn.isDict])]; exact ⟨tail, htail, htint⟩
    | int n => rw [if_neg (by simp [Dyn.isDict])]; exact ⟨tail, htail, htint⟩
    | bool b => rw [if_neg (by simp [Dyn.isDict])]; exact ⟨tail, htail, htint⟩
    | null => rw [if_neg (by simp [Dyn.isDict])]; exact ⟨tail, htail, htint⟩
    | list xs => rw [if_neg (by simp [Dyn.isDict])]; exact ⟨tail, htail, htint⟩

/-- The chart loop succeeds on well-shaped tiers. -/
theorem chartCollect_ok {user_age : Int} {cat : String} {zn : Dyn}
    {cis : List Dyn} (h : cis.all chartItemOK = true) :
    ∃ ms, chartCollect user_age cat zn cis = .ok ms ∧
      ms.all matchAmountInt = true := by
  induction cis with
  | nil => exact ⟨[], rfl, rfl⟩
  | cons ci rest ih =>
    rw [List.all_cons, Bool.and_eq_true] at h
    obtain ⟨tail, htail, htint⟩ := ih h.2
    have hci := h.1
    unfold chartCollect
    cases ci with
    | dict kvs =>
      unfold chartItemOK at hci
      rw [if_pos (show (Dyn.dict kvs).isDict = true from rfl)]
      obtain ⟨os, hos, hosok⟩ := iterOK_eq_true hci
      rw [hos]
      dsimp only
      obtain ⟨ms, hms, hmsint⟩ := optionsCollect_ok hosok
      rw [hms]
      dsimp only
      rw [htail]
      refine ⟨_, rfl, ?_⟩
      rw [List.all_append, Bool.and_eq_true]
      exact ⟨hmsint, htint⟩
    | str s => rw [if_neg (by simp [Dyn.isDict])]; exact ⟨tail, htail, htint⟩
    | int n => rw [if_neg (by simp [Dyn.isDict])]; exact ⟨tail, htail, htint⟩
    | bool b => rw [if_neg (by simp [Dyn.isDict])]; exact ⟨tail, htail, htint⟩
    | null => rw [if_neg (by simp [Dyn.isDict])]; exact ⟨tail, htail, htint⟩
    | list xs => rw [if_neg (by simp [Dyn.isDict])]; exact ⟨tail, htail, htint⟩

/-- The city loop succeeds when every entry is a string. -/
theorem cityFoundDyn_ok (u : String) {cs : List Dyn}
    (h : cs.all lowerOK = true) : ∃ b, cityFoundDyn u cs = .ok b := by
  induction cs with
  | nil => exact ⟨false, rfl⟩
  | cons c rest ih =>
    rw [List.all_cons, Bool.and_eq_true] at h
    obtain ⟨hc, hrest⟩ := h
    unfold cityFoundDyn
    cases c with
    | str s =>
      dsimp only [pyLower]
      by_cases hm : (pyLowerStr s == u || substrB u (pyLowerStr s)) = true
      · exact ⟨true, by rw [if_pos hm]⟩
      · obtain ⟨b, hb⟩ := ih hrest
        exact ⟨b, by rw [if_neg hm]; exact hb⟩
    | int n => exact absurd hc (by simp [lowerOK])
    | bool b => exact absurd hc (by simp [lowerOK])
    | null => exact absurd hc (by simp [lowerOK])
    | list xs => exact absurd hc (by simp [lowerOK])
    | dict kvs => exact absurd hc (by simp [lowerOK])

/-- The zone loop succeeds on well-shaped zones. -/
theorem zonesCollect_ok {user_age : Int} {u cat : String} {zs : List Dyn}
    (h : zs.all zoneOK = true) :
    ∃ ms, zonesCollect user_age u cat zs = .ok ms ∧
      ms.all matchAmountInt = true := by
  induction zs with
  | nil => exact ⟨[], rfl, rfl⟩
  | cons z rest ih =>
    rw [List.all_cons, Bool.and_eq_true] at h
    obtain ⟨tail, htail, htint⟩ := ih h.2
    have hz := h.1
    unfold zonesCollect
    cases z with
    | dict kvs =>
      unfold zoneOK at hz
      rw [Bool.and_eq_true] at hz
      rw [if_pos (show (Dyn.dict kvs).isDict = true from rfl)]
      obtain ⟨cs, hcs, hcsok⟩ := iterOK_eq_true hz.1
      rw [hcs]
      dsimp only
      obtain ⟨found, hfound⟩ := cityFoundDyn_ok u hcsok
      rw [hfound]
      dsimp only
      cases found with
      | true =>
        rw [if_pos (show (true : Bool) = true from rfl)]
        obtain ⟨cis, hcis, hcisok⟩ := iterOK_eq_true hz.2
        rw [hcis]
        dsimp only
        obtain ⟨ms, hms, hmsint⟩ := chartCollect_ok hcisok
        rw [hms]
        dsimp only
        rw [htail]
        refine ⟨_, rfl, ?_⟩
        rw [List.all_append, Bool.and_eq_true]
        exact ⟨hmsint, htint⟩
      | false =>
        rw [if_neg (by simp)]
        exact ⟨tail, htail, htint⟩
    | str s => rw [if_neg (by simp [Dyn.isDict])]; exact ⟨tail, htail, htint⟩
    | int n => rw [if_neg (by simp [Dyn.isDict])]; exact ⟨tail, htail, htint⟩
    | bool b => rw [if_neg (by simp [Dyn.isDict])]; exact ⟨tail, htail, htint⟩
    | null => rw [if_neg (by simp [Dyn.isDict])]; exact ⟨tail, htail, htint⟩
    | list xs => rw [if_neg (by simp [Dyn.isDict])]; exact ⟨tail, htail, htint⟩

/-- An int-amount match can be destructured. -/
theorem matchAmountInt_int {m : DynMatch} (h : matchAmountInt m = true) :
    ∃ n, m.premium_amount = Dyn.int n := by
  unfold matchAmountInt at h
  cases hm : m.premium_amount with
  | int n => exact ⟨n, rfl⟩
  | str s => rw [hm] at h; exact absurd h (by simp)
  | bool b => rw [hm] at h; exact absurd h (by simp)
  | null => rw [hm] at h; exact absurd h (by simp)
  | list xs => rw [hm] at h; exact absurd h (by simp)
  | dict kvs => rw [hm] at h; exact absurd h (by simp)

/-- The min-fold succeeds on int amounts and keeps one. -/
theorem pyMinFold_ok {xs : List DynMatch} :
    ∀ best : DynMatch, matchAmountInt best = true → xs.all matchAmountInt = true →
      ∃ m, pyMinFold best xs = .ok m ∧ matchAmountInt m = true := by
  induction xs with
  | nil => exact fun best hb _ => ⟨best, rfl, hb⟩
  | cons y ys ih =>
    intro best hb hxs
    rw [List.all_cons, Bool.and_eq_true] at hxs
    obtain ⟨hy, hys⟩ := hxs
    obtain ⟨ny, hny⟩ := matchAmountInt_int hy
    obtain ⟨nb, hnb⟩ := matchAmountInt_int hb
    unfold pyMinFold
    rw [hny, hnb]
    dsimp only [pyLt]
    by_cases hlt : ny < nb
    · obtain ⟨m, hm, hmint⟩ := ih y hy hys
      refine ⟨m, ?_, hmint⟩
      rw [if_pos (decide_eq_true hlt)]
      exact hm
    · obtain ⟨m, hm, hmint⟩ := ih best hb hys
      refine ⟨m, ?_, hmint⟩
      rw [if_neg (by simpa using hlt)]
      exact hm

/-- `min` succeeds on int amounts. -/
theorem pyMinByDyn_ok {ms : List DynMatch} (h : ms.all matchAmountInt = true) :
    ∃ r, pyMinByDyn ms = .ok r ∧ ∀ m, r = some m → matchAmountInt m = true := by
  cases ms with
  | nil => exact ⟨none, rfl, by simp⟩
  | cons x xs =>
    rw [List.all_cons, Bool.and_eq_true] at h
    obtain ⟨m, hm, hint⟩ := pyMinFold_ok x h.1 h.2
    unfold pyMinByDyn
    dsimp only
    rw [hm]
    refine ⟨some m, rfl, fun m2 e => ?_⟩
    rw [← Option.some.inj e]
    exact hint

/-- The dynamic resolver succeeds on well-shaped premium tables. -/
theorem find_applicable_premium_dyn_ok {premiums : Dyn} {user_age : Int}
    {user_city policy_category : String} (h : premiumsOK premiums = true) :
    ∃ r, find_applicable_premium_dyn premiums user_age user_city policy_category = .ok r ∧
      ∀ m, r = some m → matchAmountInt m = true := by
  unfold find_applicable_premium_dyn
  by_cases hguard : (!premiums.truthy || !premiums.isList) = true
  · rw [if_pos hguard]
    exact ⟨none, rfl, by simp⟩
  · rw [if_neg hguard]
    cases premiums with
    | list zs =>
      dsimp only [pyIter]
      unfold premiumsOK at h
      obtain ⟨ms, hms, hint⟩ := zonesCollect_ok h
      rw [hms]
      exact pyMinByDyn_ok hint
    | str s => exact absurd (by simp [Dyn.isList]) hguard
    | int n => exact absurd (by simp [Dyn.isList]) hguard
    | bool b => exact absurd (by simp [Dyn.isList]) hguard
    | null => exact absurd (by simp [Dyn.isList]) hguard
    | dict kvs => exact absurd (by simp [Dyn.isList]) hguard

/-- The dynamic filter loop completes on well-shaped policy
documents. -/
theorem filter_policies_dyn_ok {ps : List Dyn} {user_age user_budget : Int}
    {user_city policy_category : String} (h : ps.all policyOK = true) :
    (filter_policies_dyn ps user_age user_budget user_city policy_category).isOk
      = true := by
  induction ps with
  | nil => rfl
  | cons p rest ih =>
    rw [List.all_cons, Bool.and_eq_true] at h
    obtain ⟨hp, hrest⟩ := h
    have htail := ih hrest
    unfold filter_policies_dyn
    cases p with
    | dict kvs =>
      unfold policyOK Dyn.getD at hp
      dsimp only [pyGet]
      obtain ⟨r, hr, hrint⟩ := find_applicable_premium_dyn_ok hp
      rw [hr]
      cases r with
      | none => exact htail
      | some info =>
        obtain ⟨n, hn⟩ := matchAmountInt_int (hrint info rfl)
        dsimp only
        rw [hn]
        dsimp only [pyLe]
        cases hfr : filter_policies_dyn rest user_age user_budget user_city
            policy_category with
        | error e =>
          rw [hfr] at htail
          exact absurd htail (by simp [Except.isOk, Except.toBool])
        | ok tail => rfl
    | str s => exact absurd hp (by simp [policyOK])
    | int n => exact absurd hp (by simp [policyOK])
    | bool b => exact absurd hp (by simp [policyOK])
    | null => exact absurd hp (by simp [policyOK])
    | list xs => exact absurd hp (by simp [policyOK])

/-- C8 counterexample: a single malformed record — a non-dict (integer)
entry inside a zone's `cities` list — makes the premium lookup raise
(`.lower()` on a non-string, outside any `try`), and one such record
aborts the whole filter pass even though the other record is fine. -/
theorem malformed_cities_entry_aborts_pass :
    (find_applicable_premium_dyn badCitiesPremiums 28 "Mumbai" "Individual").isOk
        = false ∧
    (filter_policies_dyn [goodPolicyDyn, badPolicyDyn] 28 15000 "Mumbai"
        "Individual").isOk = false ∧
    (filter_policies_dyn [goodPolicyDyn] 28 15000 "Mumbai" "Individual").isOk
        = true := by decide

/-- C8 amended: the malformations the pass does recover from are
missing fields, non-dict entries in the four dict-carrying lists
(`premiums`, `premiumChart`, `premiumOptions`, `ageBrackets`) and
unparsable age brackets — provided `cities` entries are strings,
iterated fields are iterable and present `premiumAmount`s are ints
(`premiumsOK`); then the resolver and the whole filter pass complete,
non-dict zone entries are skipped without effect, and a non-matching
bracket is skipped without effect. -/
theorem malformed_records_recovered :
    (∀ (premiums : Dyn) (user_age : Int) (user_city policy_category : String),
      premiumsOK premiums = true →
      (find_applicable_premium_dyn premiums user_age user_city
        policy_category).isOk = true) ∧
    (∀ (store : List Dyn) (user_age user_budget : Int)
        (user_city policy_category : String),
      store.all policyOK = true →
      (filter_policies_dyn store user_age user_budget user_city
        policy_category).isOk = true) ∧
    (∀ (junk : Dyn) (zs : List Dyn) (user_age : Int)
        (user_city policy_category : String),
      junk.isDict = false →
      find_applicable_premium_dyn (Dyn.list (junk :: zs)) user_age user_city
          policy_category =
        find_applicable_premium_dyn (Dyn.list zs) user_age user_city
          policy_category) ∧
    (∀ (user_age : Int) (si zn comp br : Dyn) (bs : List Dyn),
      bracketEntryDyn user_age si zn comp br = none →
      (br :: bs).filterMap (bracketEntryDyn user_age si zn comp) =
        bs.filterMap (bracketEntryDyn user_age si zn comp)) := by
  refine ⟨?_, ?_, ?_, ?_⟩
  · intro premiums user_age user_city policy_category h
    obtain ⟨r, hr, -⟩ := find_applicable_premium_dyn_ok h
    rw [hr]
    rfl
  · intro store user_age user_budget user_city policy_category h
    exact filter_policies_dyn_ok h
  · intro junk zs user_age user_city policy_category hj
    have hskip : ∀ rest, zonesCollect user_age (pyLowerStr user_city)
        policy_category (junk :: rest) =
        zonesCollect user_age (pyLowerStr user_city) policy_category rest := by
      intro rest
      unfold zonesCollect
      cases junk with
      | dict kvs => exact absurd hj (by simp [Dyn.isDict])
      | str s => rw [if_neg (by simp [Dyn.isDict])]; cases rest <;> rfl
      | int n => rw [if_neg (by simp [Dyn.isDict])]; cases rest <;> rfl
      | bool b => rw [if_neg (by simp [Dyn.isDict])]; cases rest <;> rfl
      | null => rw [if_neg (by simp [Dyn.isDict])]; cases rest <;> rfl
      | list xs => rw [if_neg (by simp [Dyn.isDict])]; cases rest <;> rfl
    cases zs with
    | nil =>
      unfold find_applicable_premium_dyn
      rw [if_neg (by simp [Dyn.truthy, Dyn.isList]),
        if_pos (by simp [Dyn.truthy, Dyn.isList])]
      dsimp only [pyIter]
      rw [hskip]
      rfl
    | cons z rest =>
      unfold find_applicable_premium_dyn
      rw [if_neg (by simp [Dyn.truthy, Dyn.isList]),
        if_neg (by simp [Dyn.truthy, Dyn.isList])]
      dsimp only [pyIter]
      rw [hskip]
  · intro user_age si zn comp br bs h
    rw [List.filterMap_cons, h]

/-- C8 amended witness: a table malformed in all the recovered ways
(non-dict zone, non-dict chart entry, non-dict option, missing
`sumInsured`, unparsable bracket, missing `premiumAmount`) still
resolves without raising. -/
theorem malformed_records_recovered_witness :
    (find_applicable_premium_dyn messyPremiums 28 "Mumbai" "Individual").isOk
      = true :=
  malformed_records_recovered.1 messyPremiums 28 "Mumbai" "Individual" (by decide)

end AskMyPolicy
